import Mathlib

/-!
Shallow embedding of the api-reverse-engineering-playbook clients
(src/twitter/twitter_api.py, src/indeed/indeed_api.py, src/yelp/yelp_api.py).

Modelling conventions
* JSON values (Python dicts/lists/scalars as they appear in decoded
  responses) are modelled by the inductive `Json` below; numbers are `Int`
  (no claim depends on float values).
* Python runtime failures (raised exceptions) are modelled by
  `Except String`; the string is the exception message.  `dict.get` on a
  non-dict is an `AttributeError`, `x[k]` on a non-dict a `TypeError` or
  `KeyError`, exactly as in CPython.  Iterating a non-list and joining
  non-strings are also modelled as errors (in CPython some of these cases
  iterate keys/characters instead; no claim depends on those shapes).
* The HTTP transport and the BeautifulSoup DOM primitives are external
  collaborators (spec section 1); a network source is a function from the
  call index and the request parameters to either an exception or the
  decoded payload, and a parsed HTML page is modelled as the record of
  values the client extracts from it.
* Generators are modelled by a fuel-indexed loop producing a `RunResult`:
  the records yielded in order, the network calls issued in order, the
  per-batch record lists, per-iteration pagination state, and the
  exception (if any) escaping the generator.  Running out of fuel is
  reported as the distinguished error "fuel exhausted" (the Twitter loop
  can genuinely diverge, see claim C2).
-/

/-- Model of a decoded JSON / Python value. -/
inductive Json where
  | null : Json
  | bool (b : Bool) : Json
  | num (n : Int) : Json
  | str (s : String) : Json
  | arr (elems : List Json) : Json
  | obj (fields : List (String × Json)) : Json

mutual

/-- Structural equality of JSON values (Python `==` on these shapes). -/
def Json.beq : Json → Json → Bool
  | .null, .null => true
  | .bool a, .bool b => a == b
  | .num a, .num b => a == b
  | .str a, .str b => a == b
  | .arr xs, .arr ys => Json.beqList xs ys
  | .obj xs, .obj ys => Json.beqObj xs ys
  | _, _ => false

def Json.beqList : List Json → List Json → Bool
  | [], [] => true
  | x :: xs, y :: ys => Json.beq x y && Json.beqList xs ys
  | _, _ => false

def Json.beqObj : List (String × Json) → List (String × Json) → Bool
  | [], [] => true
  | kv :: xs, kw :: ys => kv.1 == kw.1 && Json.beq kv.2 kw.2 && Json.beqObj xs ys
  | _, _ => false

end

instance : BEq Json := ⟨Json.beq⟩

namespace Json

/-- Python truthiness of a value. -/
def truthy : Json → Bool
  | .null => false
  | .bool b => b
  | .num n => n != 0
  | .str s => s != ""
  | .arr xs => !xs.isEmpty
  | .obj kvs => !kvs.isEmpty

/-- Top-level key list of an object (empty for non-objects). -/
def keys : Json → List String
  | .obj kvs => kvs.map Prod.fst
  | _ => []

def isObj : Json → Bool
  | .obj _ => true
  | _ => false

def isArr : Json → Bool
  | .arr _ => true
  | _ => false

end Json

/-- Python `d.get(k, default)`; raises AttributeError on a non-dict. -/
def pyGetD (j : Json) (k : String) (d : Json) : Except String Json :=
  match j with
  | .obj kvs => .ok ((kvs.lookup k).getD d)
  | _ => .error "AttributeError: object has no attribute get"

/-- Python `d.get(k)` (default `None`). -/
def pyGet (j : Json) (k : String) : Except String Json :=
  pyGetD j k .null

/-- Python `d[k]`: KeyError when absent, TypeError on a non-dict. -/
def pyIndex (j : Json) (k : String) : Except String Json :=
  match j with
  | .obj kvs =>
    match kvs.lookup k with
    | some v => .ok v
    | none => .error ("KeyError: " ++ k)
  | _ => .error "TypeError: object is not subscriptable"

/-- Contiguous-sublist test, used for Python `in` on strings. -/
def listInfixOf (needle : List Char) : List Char → Bool
  | [] => needle.isEmpty
  | c :: rest => needle.isPrefixOf (c :: rest) || listInfixOf needle rest

/-- Python `k in j` for a string key: dict key test, list membership,
string containment; TypeError otherwise. -/
def pyHasKey (j : Json) (k : String) : Except String Bool :=
  match j with
  | .obj kvs => .ok (kvs.any (fun kv => kv.1 == k))
  | .arr xs => .ok (xs.any (fun x => x == .str k))
  | .str s => .ok (listInfixOf k.data s.data)
  | _ => .error "TypeError: argument is not iterable"

/-- Python `len(j)`; TypeError on values without a length. -/
def pyLen (j : Json) : Except String Nat :=
  match j with
  | .arr xs => .ok xs.length
  | .obj kvs => .ok kvs.length
  | .str s => .ok s.length
  | _ => .error "TypeError: object has no len"

/-- Python `c >= j` for a running `int` count against a JSON value. -/
def pyGeNat (c : Nat) (j : Json) : Except String Bool :=
  match j with
  | .num n => .ok (decide ((c : Int) ≥ n))
  | .bool b => .ok (decide ((c : Int) ≥ (if b then 1 else 0)))
  | _ => .error "TypeError: comparison not supported"

/-- Python `str(...)` / f-string interpolation of a value. -/
def pyStr : Json → String
  | .null => "None"
  | .bool b => if b then "True" else "False"
  | .num n => toString n
  | .str s => s
  | .arr _ => "<list>"
  | .obj _ => "<dict>"

/-- Maps a fallible function over a list, failing on the first error
(the semantics of a Python list comprehension whose body may raise). -/
def mapOrFail {a b : Type} (f : a → Except String b) : List a → Except String (List b)
  | [] => .ok []
  | x :: xs => do
    let y ← f x
    let ys ← mapOrFail f xs
    pure (y :: ys)

/-- One outbound network request, as recorded in a run trace. -/
inductive NetCall where
  | twitterSearch (rawQuery : String) (count : Nat) (cursor : Json) : NetCall
  | indeedPage (q l : String) (start limit : Nat) : NetCall
  | indeedGql (q l : String) (page limit : Nat) (mosaicId : String) : NetCall
  | yelpPage (params : List (String × String)) : NetCall
  | yelpGql (term loc : String) (offset limit : Nat) : NetCall

/-- Pagination state at the start of one driver iteration. -/
structure IterRec where
  offset : Nat
  batchSize : Nat
  countBefore : Nat
deriving DecidableEq, Repr

/-- Observable outcome of consuming a `search_all` generator to the end:
records yielded (in order), network calls issued (in order), the record
batch of each completed iteration, pagination state of each started
iteration, the Bottom cursor of each completed Twitter iteration, and the
exception escaping the generator, if any. -/
structure RunResult where
  yielded : List Json
  calls : List NetCall
  batches : List Json
  iters : List IterRec
  cursors : List Json
  err : Option String

/-- Model of an HTTP response (status code, decoded JSON body, raw text). -/
structure HttpResp where
  status : Nat
  body : Json
  text : String

namespace Twitter

/-- Request parameters of one `TwitterSearchAPI.search` call (the
`variables` object: rawQuery, count, and the cursor when truthy). -/
structure Req where
  rawQuery : String
  count : Nat
  cursor : Json

/-- A Twitter network source: call index and request to outcome. -/
abbrev Source := Nat → Req → Except String Json

/-- Embeds `TwitterSearchAPI._obtain_guest_token`: POST the activation
endpoint; on 200 extract `guest_token` from the body (logging slices the
token, so a non-string token raises), otherwise raise with the status. -/
def obtainGuestToken (resp : Except String HttpResp) : Except String String := do
  let r ← resp
  if r.status = 200 then
    let gt ← pyGet r.body "guest_token"
    match gt with
    | .str s => .ok s
    | _ => .error "TypeError: guest token is not a string"
  else
    .error ("Failed to obtain guest token: " ++ toString r.status ++ " " ++ r.text)

/-- Embeds the status check of `TwitterSearchAPI.search` (lines 131-136):
200 returns the decoded body, anything else raises `Search failed`. -/
def searchHttp (resp : Except String HttpResp) : Except String Json := do
  let r ← resp
  if r.status = 200 then .ok r.body
  else .error ("Search failed: " ++ toString r.status ++ " " ++ r.text)

/-- Builds the list elements of `[h.get(k) for h in v]`. -/
def pyMapGet (v : Json) (k : String) : Except String Json :=
  match v with
  | .arr xs => do
    let ys ← mapOrFail (fun h => pyGet h k) xs
    pure (.arr ys)
  | _ => .error "TypeError: object is not iterable"

/-- One element of the `mentions` comprehension of `extract_tweet_data`. -/
def mentionRec (m : Json) : Except String Json := do
  let sn ← pyGet m "screen_name"
  let nm ← pyGet m "name"
  let idv ← pyGet m "id_str"
  pure (.obj [("screen_name", sn), ("name", nm), ("id", idv)])

/-- The `mentions` comprehension of `extract_tweet_data`. -/
def pyMapMentions (v : Json) : Except String Json :=
  match v with
  | .arr xs => do
    let ys ← mapOrFail mentionRec xs
    pure (.arr ys)
  | _ => .error "TypeError: object is not iterable"

/-- One element of the `media` comprehension of `extract_tweet_data`. -/
def mediaRec (m : Json) : Except String Json := do
  let ty ← pyGet m "type"
  let u ← pyGet m "media_url_https"
  let alt ← pyGet m "ext_alt_text"
  pure (.obj [("type", ty), ("url", u), ("alt_text", alt)])

/-- The `media` comprehension of `extract_tweet_data`. -/
def pyMapMedia (v : Json) : Except String Json :=
  match v with
  | .arr xs => do
    let ys ← mapOrFail mediaRec xs
    pure (.arr ys)
  | _ => .error "TypeError: object is not iterable"

/-- Embeds `TwitterSearchAPI.extract_tweet_data` (lines 198-245).  The
`.get` chains default missing fields to `{}` / `None` / `[]`; a present
field of the wrong shape raises, as in Python. -/
def extractTweetData (tweet : Json) : Except String Json := do
  let legacy ← pyGetD tweet "legacy" (.obj [])
  let core ← pyGetD tweet "core" (.obj [])
  let userResults ← pyGetD core "user_results" (.obj [])
  let userResult ← pyGetD userResults "result" (.obj [])
  let user ← pyGetD userResult "legacy" (.obj [])
  let restId ← pyGet tweet "rest_id"
  let createdAt ← pyGet legacy "created_at"
  let fullText ← pyGet legacy "full_text"
  let rtCount ← pyGet legacy "retweet_count"
  let favCount ← pyGet legacy "favorite_count"
  let replyCount ← pyGet legacy "reply_count"
  let quoteCount ← pyGet legacy "quote_count"
  let userId ← pyGet user "id_str"
  let userName ← pyGet user "name"
  let screenName ← pyGet user "screen_name"
  let followers ← pyGet user "followers_count"
  let friends ← pyGet user "friends_count"
  let verified ← pyGetD user "verified" (.bool false)
  let entsH ← pyGetD legacy "entities" (.obj [])
  let hashtagsRaw ← pyGetD entsH "hashtags" (.arr [])
  let hashtags ← pyMapGet hashtagsRaw "text"
  let entsU ← pyGetD legacy "entities" (.obj [])
  let urlsRaw ← pyGetD entsU "urls" (.arr [])
  let urls ← pyMapGet urlsRaw "expanded_url"
  let entsM ← pyGetD legacy "entities" (.obj [])
  let mentionsRaw ← pyGetD entsM "user_mentions" (.arr [])
  let mentions ← pyMapMentions mentionsRaw
  let entsMed ← pyGetD legacy "entities" (.obj [])
  let hasMedia ← pyHasKey entsMed "media"
  let media ←
    if hasMedia then do
      let entsMed2 ← pyGetD legacy "entities" (.obj [])
      let mediaRaw ← pyGetD entsMed2 "media" (.arr [])
      pyMapMedia mediaRaw
    else
      pure (Json.arr [])
  pure (Json.obj
    [("id", restId), ("created_at", createdAt), ("text", fullText),
     ("retweet_count", rtCount), ("favorite_count", favCount),
     ("reply_count", replyCount), ("quote_count", quoteCount),
     ("user", Json.obj
       [("id", userId), ("name", userName), ("screen_name", screenName),
        ("followers_count", followers), ("friends_count", friends),
        ("verified", verified)]),
     ("hashtags", hashtags), ("urls", urls), ("mentions", mentions),
     ("media", media)])

/-- The entry accumulation of `search_all` lines 167-170: collect the
`entries` of every `TimelineAddEntries` instruction. -/
def collectEntries : List Json → Except String (List Json)
  | [] => .ok []
  | instr :: rest => do
    let ty ← pyGet instr "type"
    if ty == Json.str "TimelineAddEntries" then
      let es ← pyGetD instr "entries" (.arr [])
      match es with
      | .arr l => do
        let r ← collectEntries rest
        pure (l ++ r)
      | _ => .error "TypeError: object is not iterable"
    else
      collectEntries rest

/-- The instruction extraction of `search_all` line 165. -/
def entriesOf (resp : Json) : Except String (List Json) := do
  let d ← pyGetD resp "data" (.obj [])
  let q ← pyGetD d "search_by_raw_query" (.obj [])
  let st ← pyGetD q "search_timeline" (.obj [])
  let tl ← pyGetD st "timeline" (.obj [])
  let instrs ← pyGetD tl "instructions" (.arr [])
  match instrs with
  | .arr is => collectEntries is
  | _ => .error "TypeError: object is not iterable"

/-- The cursor scan of `search_all` lines 172-177: first entry whose
content is a Bottom `TimelineTimelineCursor` supplies the new cursor;
`None` (null) when no such entry exists. -/
def findCursor : List Json → Except String Json
  | [] => .ok .null
  | entry :: rest => do
    let content ← pyGetD entry "content" (.obj [])
    let et ← pyGet content "entryType"
    if et == Json.str "TimelineTimelineCursor" then do
      let content2 ← pyGetD entry "content" (.obj [])
      let ct ← pyGet content2 "cursorType"
      if ct == Json.str "Bottom" then do
        let content3 ← pyGetD entry "content" (.obj [])
        pyGet content3 "value"
      else
        findCursor rest
    else
      findCursor rest

/-- Outcome of the tweet yield loop over one batch of entries. -/
structure BatchOut where
  yielded : List Json
  tweets : List Json
  numTweets : Nat
  err : Option String

/-- The yield loop of `search_all` lines 180-188: each timeline item whose
`tweet_results.result` is truthy bumps the count and yields its extracted
record; there is no cap against `max_results` inside this loop. -/
def yieldTweets : List Json → BatchOut
  | [] => ⟨[], [], 0, none⟩
  | entry :: rest =>
    match pyGetD entry "content" (.obj []) with
    | .error e => ⟨[], [], 0, some e⟩
    | .ok content =>
      match pyGet content "entryType" with
      | .error e => ⟨[], [], 0, some e⟩
      | .ok et =>
        if et == Json.str "TimelineTimelineItem" then
          match pyGetD content "itemContent" (.obj []) with
          | .error e => ⟨[], [], 0, some e⟩
          | .ok ic =>
            match pyHasKey ic "tweet_results" with
            | .error e => ⟨[], [], 0, some e⟩
            | .ok hk =>
              if hk then
                match pyGetD content "itemContent" (.obj []) with
                | .error e => ⟨[], [], 0, some e⟩
                | .ok ic2 =>
                  match pyGetD ic2 "tweet_results" (.obj []) with
                  | .error e => ⟨[], [], 0, some e⟩
                  | .ok tr =>
                    match pyGetD tr "result" (.obj []) with
                    | .error e => ⟨[], [], 0, some e⟩
                    | .ok td =>
                      if td.truthy then
                        match extractTweetData td with
                        | .error e => ⟨[], [], 0, some e⟩
                        | .ok r =>
                          let o := yieldTweets rest
                          ⟨r :: o.yielded, td :: o.tweets, o.numTweets + 1, o.err⟩
                      else
                        yieldTweets rest
              else
                yieldTweets rest
        else
          yieldTweets rest

/-- Number of records a response contributes to one batch (how many
truthy, extractable timeline items it carries). -/
def respCount (resp : Json) : Nat :=
  match entriesOf resp with
  | .ok es => (yieldTweets es).numTweets
  | .error _ => 0

/-- Embeds the `while` loop of `TwitterSearchAPI.search_all`
(lines 152-196), instrumented with the run trace.  State: running count,
call index, current cursor; the loop itself has no empty-batch stop and
no per-tweet cap, it stops on a falsy cursor or `results_count >=
max_results`. -/
def searchLoop (src : Source) (q : String) (M : Nat) :
    Nat → Nat → Json → Nat → RunResult
  | _, _, _, 0 => ⟨[], [], [], [], [], some "fuel exhausted"⟩
  | count, k, cursor, fuel + 1 =>
    if count < M then
      let batch := min 20 (M - count)
      if batch = 0 then ⟨[], [], [], [], [], none⟩
      else
        let call := NetCall.twitterSearch q batch cursor
        match src k ⟨q, batch, cursor⟩ with
        | .error e => ⟨[], [call], [], [], [], some e⟩
        | .ok resp =>
          match entriesOf resp with
          | .error e => ⟨[], [call], [], [], [], some e⟩
          | .ok es =>
            match findCursor es with
            | .error e => ⟨[], [call], [], [], [], some e⟩
            | .ok cur =>
              let o := yieldTweets es
              match o.err with
              | some e => ⟨o.yielded, [call], [], [], [], some e⟩
              | none =>
                let count2 := count + o.numTweets
                if !cur.truthy || M ≤ count2 then
                  ⟨o.yielded, [call], [Json.arr o.tweets], [], [cur], none⟩
                else
                  let rest := searchLoop src q M count2 (k + 1) cur fuel
                  ⟨o.yielded ++ rest.yielded, call :: rest.calls,
                   Json.arr o.tweets :: rest.batches, rest.iters,
                   cur :: rest.cursors, rest.err⟩
    else ⟨[], [], [], [], [], none⟩

/-- Embeds `TwitterSearchAPI.search_all`: count 0, no cursor. -/
def searchAll (src : Source) (q : String) (maxResults fuel : Nat) : RunResult :=
  searchLoop src q maxResults 0 0 .null fuel

end Twitter

namespace Indeed

/-- Base URL constant of `IndeedJobSearchAPI`. -/
def baseUrl : String := "https://www.indeed.com"

/-- Tokens held by an `IndeedJobSearchAPI` instance after bootstrap. -/
structure Session where
  csrfToken : Option String
  indeedCsrfToken : Option String

/-- Values `_initialize_session` extracts from the landing page: the
`indeed-csrf-token` meta content and the `csrfToken` matched inside the
`window._initialData` script (DOM parsing is an external collaborator). -/
structure HomePage where
  csrfMeta : Option String
  gqlCsrf : Option String

/-- Embeds `IndeedJobSearchAPI._initialize_session` (lines 47-81):
non-200 raises; otherwise the two tokens are stored (either may be
missing, which is only logged). -/
def initSession (resp : Except String (Nat × HomePage)) : Except String Session := do
  let (status, home) ← resp
  if status = 200 then .ok ⟨home.csrfMeta, home.gqlCsrf⟩
  else .error ("Failed to initialize session: " ++ toString status)

/-- The link element inside a job card title, as extracted by
`_parse_html_results`. -/
structure LinkElem where
  href : Option String
  dataJk : Option String

/-- The `h2.jobTitle` element of a job card. -/
structure TitleElem where
  text : String
  link : Option LinkElem

/-- One `div.job_seen_beacon` card, as the values `_parse_html_results`
extracts from the DOM (each `find` may come back empty). -/
structure JobCard where
  titleElem : Option TitleElem
  company : Option String
  location : Option String
  salary : Option String
  snippet : Option String
  date : Option String

/-- Optional string to JSON (`None` when absent). -/
def optStr : Option String → Json
  | some s => .str s
  | none => .null

/-- The record `_parse_html_results` appends for one card
(lines 263-272): fixed eight-key shape, absent elements defaulted. -/
def cardRecord (card : JobCard) : Json :=
  let title := match card.titleElem with
    | some t => t.text
    | none => "Unknown Title"
  let jobLink := match card.titleElem with
    | some t => t.link
    | none => none
  let jobUrl := match jobLink with
    | some lk => match lk.href with
      | some h => Json.str (baseUrl ++ h)
      | none => Json.null
    | none => Json.null
  let jobId := match jobLink with
    | some lk => optStr lk.dataJk
    | none => Json.null
  Json.obj
    [("id", jobId), ("title", .str title),
     ("company", .str (card.company.getD "Unknown Company")),
     ("location", .str (card.location.getD "Unknown Location")),
     ("salary", optStr card.salary), ("description", optStr card.snippet),
     ("url", jobUrl), ("date_posted", optStr card.date)]

/-- Embeds `IndeedJobSearchAPI._parse_html_results` (lines 219-281):
returns `{"results": [...], "count": n}`. -/
def parseHtmlResults (cards : List JobCard) : Json :=
  let results := cards.map cardRecord
  Json.obj [("results", .arr results), ("count", .num results.length)]

/-- Embeds `IndeedJobSearchAPI._format_location` (lines 350-368). -/
def formatLocation (location : Json) : Except String String := do
  let city ← pyGet location "city"
  let parts1 : List Json := if city.truthy then [city] else []
  let state ← pyGet location "state"
  let parts2 : List Json := parts1 ++ (if state.truthy then [state] else [])
  let country ← pyGet location "country"
  let parts3 : List Json :=
    parts2 ++ (if country.truthy && !(city.truthy || state.truthy) then [country] else [])
  if parts3.isEmpty then
    pure "Remote"
  else do
    let strs ← mapOrFail (fun j =>
      match j with
      | .str s => Except.ok s
      | _ => Except.error "TypeError: sequence item is not str") parts3
    pure (String.intercalate ", " strs)

/-- The record `search_all` yields for one GraphQL-format job
(lines 326-336): fixed nine-key shape built from `job["job"]`. -/
def gqlRecord (job : Json) : Except String Json := do
  let jd ← pyIndex job "job"
  let key ← pyGet jd "key"
  let title ← pyGet jd "title"
  let company ← pyGetD jd "company" (.obj [])
  let companyName ← pyGet company "name"
  let loc ← pyGetD jd "location" (.obj [])
  let locStr ← formatLocation loc
  let salSnippet ← pyGetD jd "salarySnippet" (.obj [])
  let salText ← pyGet salSnippet "text"
  let jobTypes ← pyGetD jd "jobTypes" (.arr [])
  let desc ← pyGet jd "description"
  let key2 ← pyGet jd "key"
  let datePosted ← pyGet jd "postingDate"
  pure (Json.obj
    [("id", key), ("title", title), ("company", companyName),
     ("location", .str locStr), ("salary", salText),
     ("job_types", jobTypes), ("description", desc),
     ("url", .str (baseUrl ++ "/viewjob?jk=" ++ pyStr key2)),
     ("date_posted", datePosted)])

/-- Request parameters of the traditional results-page GET of
`IndeedJobSearchAPI.search`: `start` is `page * limit`. -/
structure PageReq where
  q : String
  l : String
  start : Nat
  limit : Nat

/-- Request parameters of the GraphQL POST of `_search_graphql`. -/
structure GqlReq where
  q : String
  l : String
  page : Nat
  limit : Nat
  mosaicId : String

/-- Outcome of the results-page GET, as the values `search` extracts from
the parsed page: the optional `data-mosaic-id` and the job cards. -/
structure Page where
  mosaicId : Option String
  jobCards : List JobCard

/-- An Indeed page source / GraphQL source: call index and request to
outcome (an `.error` covers both transport failures and non-200
statuses, which `search` and `_search_graphql` turn into raises). -/
abbrev PageSource := Nat → PageReq → Except String Page

abbrev GqlSource := Nat → GqlReq → Except String Json

/-- Embeds `IndeedJobSearchAPI.search` (lines 83-131) together with
`_search_graphql` (lines 133-217): GET the results page (`start = page *
limit`), fall back to HTML parsing when the mosaic id is missing,
otherwise POST the GraphQL query, which needs the GraphQL CSRF token.
Returns the result with the next call index and the calls issued. -/
def searchOnce (sess : Session) (ps : PageSource) (gs : GqlSource)
    (q l : String) (page limit k : Nat) :
    Except String Json × Nat × List NetCall :=
  let pcall := NetCall.indeedPage q l (page * limit) limit
  match ps k ⟨q, l, page * limit, limit⟩ with
  | .error e => (.error e, k + 1, [pcall])
  | .ok pg =>
    match pg.mosaicId with
    | none => (.ok (parseHtmlResults pg.jobCards), k + 1, [pcall])
    | some mid =>
      match sess.indeedCsrfToken with
      | none => (.error "GraphQL CSRF token not available", k + 1, [pcall])
      | some _ =>
        let gcall := NetCall.indeedGql q l page limit mid
        match gs (k + 1) ⟨q, l, page, limit, mid⟩ with
        | .error e => (.error e, k + 2, [pcall, gcall])
        | .ok j => (.ok j, k + 2, [pcall, gcall])

/-- The response dissection of `search_all` lines 309-316: GraphQL shape
when `"data"` and `"jobSearch"` are present (continuation from
`nextPageToken`), HTML shape otherwise (continuation inferred from
`len(jobs) >= batch_size`). -/
def extractJobs (resp : Json) (batchSize : Nat) : Except String (Json × Bool) := do
  let hasData ← pyHasKey resp "data"
  let isGql ←
    if hasData then do
      let d ← pyIndex resp "data"
      pyHasKey d "jobSearch"
    else
      pure false
  if isGql then do
    let d ← pyIndex resp "data"
    let js ← pyIndex d "jobSearch"
    let jobs ← pyIndex js "results"
    let pageInfo ← pyIndex js "pageInfo"
    let npt ← pyIndex pageInfo "nextPageToken"
    pure (jobs, npt != Json.null)
  else do
    let jobs ← pyGetD resp "results" (.arr [])
    let n ← pyLen jobs
    pure (jobs, decide (n ≥ batchSize))

/-- Outcome of a capped yield loop (Indeed / Yelp inner `for`). -/
structure YieldOut where
  yielded : List Json
  count : Nat
  err : Option String

/-- The yield loop of `search_all` lines 323-342: GraphQL-format jobs are
rebuilt via `gqlRecord`, HTML-format jobs are yielded as-is; the count
advances per yield and the loop breaks at `max_results`. -/
def yieldJobs (M : Nat) : List Json → Nat → YieldOut
  | [], c => ⟨[], c, none⟩
  | j :: rest, c =>
    match pyHasKey j "job" with
    | .error e => ⟨[], c, some e⟩
    | .ok hk =>
      match (if hk then gqlRecord j else .ok j : Except String Json) with
      | .error e => ⟨[], c, some e⟩
      | .ok r =>
        let c2 := c + 1
        if M ≤ c2 then ⟨[r], c2, none⟩
        else
          let o := yieldJobs M rest c2
          ⟨r :: o.yielded, o.count, o.err⟩

/-- Embeds the `while` loop of `IndeedJobSearchAPI.search_all`
(lines 283-348), instrumented with the run trace.  State: running count,
page number, call index.  An empty batch breaks before any yield; the
driver stops on `has_next_page` false or the caller maximum. -/
def searchLoop (sess : Session) (ps : PageSource) (gs : GqlSource)
    (q l : String) (M : Nat) : Nat → Nat → Nat → Nat → RunResult
  | _, _, _, 0 => ⟨[], [], [], [], [], some "fuel exhausted"⟩
  | count, page, k, fuel + 1 =>
    if count < M then
      let batch := min 10 (M - count)
      if batch = 0 then ⟨[], [], [], [], [], none⟩
      else
        let so := searchOnce sess ps gs q l page batch k
        match so.1 with
        | .error e => ⟨[], so.2.2, [], [], [], some e⟩
        | .ok resp =>
          match extractJobs resp batch with
          | .error e => ⟨[], so.2.2, [], [], [], some e⟩
          | .ok (jobs, hasNext) =>
            if !jobs.truthy then ⟨[], so.2.2, [jobs], [], [], none⟩
            else
              match jobs with
              | .arr js =>
                let o := yieldJobs M js count
                match o.err with
                | some e => ⟨o.yielded, so.2.2, [], [], [], some e⟩
                | none =>
                  if !hasNext || M ≤ o.count then
                    ⟨o.yielded, so.2.2, [jobs], [], [], none⟩
                  else
                    let rest := searchLoop sess ps gs q l M o.count (page + 1) so.2.1 fuel
                    ⟨o.yielded ++ rest.yielded, so.2.2 ++ rest.calls,
                     jobs :: rest.batches, rest.iters, rest.cursors, rest.err⟩
              | _ => ⟨[], so.2.2, [], [], [], some "TypeError: object is not iterable"⟩
    else ⟨[], [], [], [], [], none⟩

/-- Embeds `IndeedJobSearchAPI.search_all`: count 0, page 0. -/
def searchAll (sess : Session) (ps : PageSource) (gs : GqlSource)
    (q l : String) (maxResults fuel : Nat) : RunResult :=
  searchLoop sess ps gs q l maxResults 0 0 0 fuel

end Indeed

namespace Yelp

/-- Base URL constant of `YelpBusinessSearchAPI`. -/
def baseUrl : String := "https://www.yelp.com"

/-- Token held by a `YelpBusinessSearchAPI` instance after bootstrap. -/
structure Session where
  csrfToken : Option String

/-- Values `_initialize_session` extracts from the landing page: the
token matched by `csrf: "..."` inside the `yelp.www.init.csrf` script. -/
structure HomePage where
  csrf : Option String

/-- Embeds `YelpBusinessSearchAPI._initialize_session` (lines 49-79):
non-200 raises; a missing token is only logged. -/
def initSession (resp : Except String (Nat × HomePage)) : Except String Session := do
  let (status, home) ← resp
  if status = 200 then .ok ⟨home.csrf⟩
  else .error ("Failed to initialize session: " ++ toString status)

/-- Category link of a business card, as extracted by
`_parse_html_results`. -/
structure CategoryElem where
  title : String
  href : Option String

/-- One business card, as the values `_parse_html_results` extracts from
the DOM: a `businessName` block with an optional anchor, plus the fields
found in its parent container (a card with no container is skipped). -/
structure BizCard where
  hasContainer : Bool
  nameText : Option String
  nameHref : Option String
  rating : Option Json
  reviewCount : Option Nat
  price : Option String
  categories : List CategoryElem
  address : Option String

/-- The `re.search` of `/biz/([^?]+)` against the card URL: text after
the first `/biz/` up to the first question mark, nonempty. -/
def bizIdOfUrl (url : String) : Option String :=
  match url.splitOn "/biz/" with
  | [] => none
  | [_] => none
  | _ :: rest =>
    let tail := String.intercalate "/biz/" rest
    let captured := tail.takeWhile (fun c => c != '?')
    if captured = "" then none else some captured

/-- The record `_parse_html_results` appends for one card
(lines 264-277): fixed ten-key shape (no `distance`); returns `none`
when the card has no parent container (the `continue` branch). -/
def cardRecord (card : BizCard) : Option Json :=
  if !card.hasContainer then none
  else
    let name := (card.nameText.getD "Unknown Business")
    let url := match card.nameHref with
      | some h => Json.str (baseUrl ++ h)
      | none => Json.null
    let bizId := match card.nameHref with
      | some h =>
        match bizIdOfUrl (baseUrl ++ h) with
        | some i => Json.str i
        | none => Json.null
      | none => Json.null
    some (Json.obj
      [("id", bizId), ("name", .str name), ("url", url),
       ("image_url", Json.null),
       ("review_count", match card.reviewCount with
         | some n => Json.num n
         | none => Json.null),
       ("rating", (card.rating.getD Json.null)),
       ("price", Indeed.optStr card.price),
       ("categories", Json.arr (card.categories.map (fun c =>
         Json.obj [("title", .str c.title),
                   ("alias", match c.href with
                     | some h => Indeed.optStr ((h.splitOn "/").getLast?)
                     | none => Json.null)]))),
       ("location", Json.obj [("display_address", Indeed.optStr card.address)]),
       ("phone", Json.null)])

/-- Embeds `YelpBusinessSearchAPI._parse_html_results` (lines 197-292):
`{"businesses": [...], "total": len, "region": {...}}` with null centre
coordinates. -/
def parseHtmlResults (cards : List BizCard) : Json :=
  let businesses := cards.filterMap cardRecord
  Json.obj
    [("businesses", .arr businesses),
     ("total", .num businesses.length),
     ("region", Json.obj [("center", Json.obj
       [("latitude", Json.null), ("longitude", Json.null)])])]

/-- The record `_extract_from_initial_state` appends for one business
entry of type `business` (lines 163-184): fixed eleven-key shape
(including `distance`). -/
def initialStateRecord (businessData : Json) : Except String Json := do
  let bid ← pyGet businessData "id"
  let name ← pyGet businessData "name"
  let bizUrl ← pyGet businessData "businessUrl"
  let photo ← pyGet businessData "photoPageUrl"
  let reviewCount ← pyGet businessData "reviewCount"
  let rating ← pyGet businessData "rating"
  let price ← pyGet businessData "priceRange"
  let cats ← pyGetD businessData "categories" (.arr [])
  let catRecs ←
    match cats with
    | .arr cs => mapOrFail (fun c => do
        let t ← pyGet c "title"
        let a ← pyGet c "alias"
        pure (Json.obj [("title", t), ("alias", a)])) cs
    | _ => .error "TypeError: object is not iterable"
  let addr ← pyGet businessData "formattedAddress"
  let neighborhoods ← pyGetD businessData "neighborhoods" (.arr [.null])
  let city ←
    match neighborhoods with
    | .arr (c :: _) => Except.ok c
    | .arr [] => Except.error "IndexError: list index out of range"
    | _ => Except.error "TypeError: object is not subscriptable"
  let addr2 ← pyGet businessData "formattedAddress"
  let phone ← pyGet businessData "phone"
  let distance ← pyGet businessData "distance"
  pure (Json.obj
    [("id", bid), ("name", name),
     ("url", .str (baseUrl ++ pyStr bizUrl)),
     ("image_url", photo), ("review_count", reviewCount),
     ("rating", rating), ("price", price),
     ("categories", .arr catRecs),
     ("location", Json.obj
       [("address1", addr), ("city", city), ("state", Json.null),
        ("zip_code", Json.null), ("display_address", addr2)]),
     ("phone", phone), ("distance", distance)])

/-- The business loop of `_extract_from_initial_state` lines 157-184:
entries whose `type` is not `business` are skipped. -/
def initialStateBusinesses : List Json → Except String (List Json)
  | [] => .ok []
  | b :: rest => do
    let ty ← pyGet b "type"
    if !(ty == Json.str "business") then
      initialStateBusinesses rest
    else do
      let bd ← pyGetD b "business" (.obj [])
      let r ← initialStateRecord bd
      let rs ← initialStateBusinesses rest
      pure (r :: rs)

/-- Embeds `YelpBusinessSearchAPI._extract_from_initial_state`
(lines 141-195): businesses, `total` (defaulting to the local count) and
the map-state region. -/
def extractFromInitialState (initialData : Json) : Except String Json := do
  let spp ← pyGetD initialData "searchPageProps" (.obj [])
  let srp ← pyGetD spp "searchResultsProps" (.obj [])
  let sresp ← pyGetD srp "searchResponse" (.obj [])
  let raw ← pyGetD sresp "searchResults" (.arr [])
  let businesses ←
    match raw with
    | .arr bs => initialStateBusinesses bs
    | _ => .error "TypeError: object is not iterable"
  let total ← pyGetD sresp "totalResults" (.num businesses.length)
  let mapState ← pyGetD spp "mapState" (.obj [])
  let center ← pyGetD mapState "center" (.obj [])
  let lat ← pyGet center "latitude"
  let lon ← pyGet center "longitude"
  pure (Json.obj
    [("businesses", .arr businesses), ("total", total),
     ("region", Json.obj [("center", Json.obj
       [("latitude", lat), ("longitude", lon)])])])

/-- The `params` dict of `YelpBusinessSearchAPI.search` (lines 95-99):
note there is no `limit` entry. -/
def searchParams (term loc : String) (offset : Nat) : List (String × String) :=
  [("find_desc", term), ("find_loc", loc), ("start", toString offset)]

/-- Request of the results-page GET: what `search` actually sends. -/
structure PageReq where
  term : String
  loc : String
  start : Nat

/-- Request of the GraphQL POST of `search_graphql` (this one does carry
the limit). -/
structure GqlReq where
  term : String
  loc : String
  offset : Nat
  limit : Nat

/-- Outcome of the results-page GET as the values `search` extracts: the
`window.__INITIAL_STATE__` JSON when found and parsed, and the business
cards for the HTML fallback. -/
structure Page where
  initialState : Option Json
  htmlCards : List BizCard

abbrev PageSource := Nat → PageReq → Except String Page

abbrev GqlSource := Nat → GqlReq → Except String Json

/-- Embeds `YelpBusinessSearchAPI.search` (lines 81-139): GET the
results page (no limit parameter), use the initial-state JSON when it is
truthy and has `searchPageProps`, otherwise parse the cards.  The
`limit` argument is accepted and ignored, as in the source. -/
def searchOnce (ps : PageSource) (term loc : String) (offset _limit k : Nat) :
    Except String Json × Nat × List NetCall :=
  let pcall := NetCall.yelpPage (searchParams term loc offset)
  match ps k ⟨term, loc, offset⟩ with
  | .error e => (.error e, k + 1, [pcall])
  | .ok pg =>
    let r : Except String Json :=
      match pg.initialState with
      | some idata =>
        if !idata.truthy then .ok (parseHtmlResults pg.htmlCards)
        else
          match pyHasKey idata "searchPageProps" with
          | .error e => .error e
          | .ok hk =>
            if hk then extractFromInitialState idata
            else .ok (parseHtmlResults pg.htmlCards)
      | none => .ok (parseHtmlResults pg.htmlCards)
    (r, k + 1, [pcall])

/-- Embeds `YelpBusinessSearchAPI.search_graphql` (lines 294-377):
raises when the CSRF token is absent (before any network call); a POST
failure is caught internally and answered by falling back to `search`
for the same offset, whose outcome (or exception) becomes the result. -/
def searchGraphql (sess : Session) (gs : GqlSource) (ps : PageSource)
    (term loc : String) (offset limit k : Nat) :
    Except String Json × Nat × List NetCall :=
  match sess.csrfToken with
  | none => (.error "CSRF token not available", k, [])
  | some _ =>
    let gcall := NetCall.yelpGql term loc offset limit
    match gs k ⟨term, loc, offset, limit⟩ with
    | .ok j => (.ok j, k + 1, [gcall])
    | .error _ =>
      let (r, k2, cs) := searchOnce ps term loc offset limit (k + 1)
      (r, k2, gcall :: cs)

/-- The yield loop of `search_all` lines 418-422: yield, bump the count,
break at `max_results`. -/
def yieldCapped (M : Nat) : List Json → Nat → List Json × Nat
  | [], c => ([], c)
  | b :: rest, c =>
    let c2 := c + 1
    if M ≤ c2 then ([b], c2)
    else
      let r := yieldCapped M rest c2
      (b :: r.1, r.2)

/-- The GraphQL-shape dissection of `search_all` lines 404-406 (the
chain is evaluated twice, once for `business` and once for `total`). -/
def gqlParse (r : Except String Json) : Except String (Json × Json) := do
  let resp ← r
  let d ← pyGetD resp "data" (.obj [])
  let s ← pyGetD d "search" (.obj [])
  let biz ← pyGetD s "business" (.arr [])
  let d2 ← pyGetD resp "data" (.obj [])
  let s2 ← pyGetD d2 "search" (.obj [])
  let tot ← pyGetD s2 "total" (.num 0)
  pure (biz, tot)

/-- The page-shape dissection of `search_all` lines 409-411. -/
def pageParse (r : Except String Json) : Except String (Json × Json) := do
  let resp ← r
  let biz ← pyGetD resp "businesses" (.arr [])
  let tot ← pyGetD resp "total" (.num 0)
  pure (biz, tot)

/-- Processes one batch of `search_all` (lines 413-425): empty batch
breaks; otherwise yield capped at the maximum and stop when the count
reaches `total` or the maximum.  `.inl` is a terminal outcome (yields,
batch trace, error), `.inr` continues with the new count. -/
def stepBiz (M : Nat) (biz tot : Json) (count : Nat) :
    (List Json × List Json × Option String) ⊕ (List Json × Json × Nat) :=
  if !biz.truthy then .inl ([], [biz], none)
  else
    match biz with
    | .arr bs =>
      let r := yieldCapped M bs count
      match pyGeNat r.2 tot with
      | .error e => .inl (r.1, [biz], some e)
      | .ok ge =>
        if ge || M ≤ r.2 then .inl (r.1, [biz], none)
        else .inr (r.1, biz, r.2)
    | _ => .inl ([], [], some "TypeError: object is not iterable")

/-- Embeds the `while` loop of `YelpBusinessSearchAPI.search_all`
(lines 379-428), instrumented with the run trace.  State: running count,
offset, call index.  The GraphQL path is tried first and any exception
from it (or from dissecting its response) selects the page-based
fallback; the offset advances by the requested batch size. -/
def searchLoop (sess : Session) (gs : GqlSource) (ps : PageSource)
    (term loc : String) (M : Nat) : Nat → Nat → Nat → Nat → RunResult
  | _, _, _, 0 => ⟨[], [], [], [], [], some "fuel exhausted"⟩
  | count, offset, k, fuel + 1 =>
    if count < M then
      let batch := min 10 (M - count)
      let it : IterRec := ⟨offset, batch, count⟩
      if batch = 0 then ⟨[], [], [], [it], [], none⟩
      else
        let sg := searchGraphql sess gs ps term loc offset batch k
        match gqlParse sg.1 with
        | .ok (biz, tot) =>
          match stepBiz M biz tot count with
          | .inl (ys, b, e) => ⟨ys, sg.2.2, b, [it], [], e⟩
          | .inr (ys, b, count2) =>
            let rest := searchLoop sess gs ps term loc M count2 (offset + batch) sg.2.1 fuel
            ⟨ys ++ rest.yielded, sg.2.2 ++ rest.calls, b :: rest.batches,
             it :: rest.iters, rest.cursors, rest.err⟩
        | .error _ =>
          let sp := searchOnce ps term loc offset batch sg.2.1
          match pageParse sp.1 with
          | .error e => ⟨[], sg.2.2 ++ sp.2.2, [], [it], [], some e⟩
          | .ok (biz, tot) =>
            match stepBiz M biz tot count with
            | .inl (ys, b, e) => ⟨ys, sg.2.2 ++ sp.2.2, b, [it], [], e⟩
            | .inr (ys, b, count2) =>
              let rest := searchLoop sess gs ps term loc M count2 (offset + batch) sp.2.1 fuel
              ⟨ys ++ rest.yielded, (sg.2.2 ++ sp.2.2) ++ rest.calls, b :: rest.batches,
               it :: rest.iters, rest.cursors, rest.err⟩
    else ⟨[], [], [], [], [], none⟩

/-- Embeds `YelpBusinessSearchAPI.search_all`: count 0, offset 0. -/
def searchAll (sess : Session) (gs : GqlSource) (ps : PageSource)
    (term loc : String) (maxResults fuel : Nat) : RunResult :=
  searchLoop sess gs ps term loc maxResults 0 0 0 fuel

end Yelp

/-! Concrete scenarios used by the claim theorems and witnesses. -/

namespace Twitter

/-- A timeline entry carrying one truthy tweet result. -/
def tweetEntry (tid : String) : Json :=
  .obj [("content", .obj
    [("entryType", .str "TimelineTimelineItem"),
     ("itemContent", .obj
       [("tweet_results", .obj
         [("result", .obj [("rest_id", .str tid)])])])])]

/-- A Bottom cursor entry with a truthy cursor value. -/
def cursorEntry (v : String) : Json :=
  .obj [("content", .obj
    [("entryType", .str "TimelineTimelineCursor"),
     ("cursorType", .str "Bottom"),
     ("value", .str v)])]

/-- A search response whose timeline holds exactly the given entries. -/
def respWithEntries (entries : List Json) : Json :=
  .obj [("data", .obj
    [("search_by_raw_query", .obj
      [("search_timeline", .obj
        [("timeline", .obj
          [("instructions", .arr
            [.obj [("type", .str "TimelineAddEntries"),
                   ("entries", .arr entries)]])])])])])]

/-- A well-behaved unlimited source: each request is answered with
exactly the requested number of tweets and a Bottom cursor. -/
def ampleSrc : Source := fun _ req =>
  .ok (respWithEntries (List.replicate req.count (tweetEntry "t") ++ [cursorEntry "cur"]))

/-- A source whose single batch carries two tweets however few were
requested (the page size is a client-side request, not a guarantee). -/
def overSrc : Source := fun _ _ =>
  .ok (respWithEntries [tweetEntry "t1", tweetEntry "t2"])

/-- A source answering the first call with an empty batch that still
carries a Bottom cursor, and the second call with a batch with neither
tweets nor cursor. -/
def emptyCursorSrc : Source := fun k _ =>
  if k = 0 then .ok (respWithEntries [cursorEntry "more"])
  else .ok (respWithEntries [])

/-- A source that always fails (e.g. a 429 turned into a raise). -/
def failSrc : Source := fun _ _ => .error "Search failed: 429 Rate limit exceeded"

end Twitter

namespace Indeed

/-- A fully populated job card served by the well-behaved page source. -/
def ampleCard : JobCard :=
  ⟨some ⟨"Engineer", some ⟨some "/rc/clk?jk=1", some "jk1"⟩⟩,
   some "Acme", some "Austin, TX", none, none, none⟩

/-- A well-behaved page source with no mosaic id (HTML path): each
request is answered with exactly `limit` job cards. -/
def amplePageSrc : PageSource := fun _ req =>
  .ok ⟨none, List.replicate req.limit ampleCard⟩

/-- A GraphQL source for scenarios in which the POST is never issued. -/
def deadGqlSrc : GqlSource := fun _ _ => .error "unreachable"

/-- A page source whose first page has no job cards. -/
def emptyPageSrc : PageSource := fun _ _ => .ok ⟨none, []⟩

/-- A page source that always fails (e.g. a 403 turned into a raise). -/
def failPageSrc : PageSource := fun _ _ => .error "Search failed: 403"

/-- Session with no tokens (both are optional after bootstrap). -/
def bareSession : Session := ⟨none, none⟩

end Indeed

namespace Yelp

/-- One initial-state search result of type `business`. -/
def bizEntry (bid : String) : Json :=
  .obj [("type", .str "business"),
        ("business", .obj [("id", .str bid), ("name", .str bid)])]

/-- The record `initialStateRecord` produces for `bizEntry bid`. -/
def bizRecordOf (bid : String) : Json :=
  .obj [("id", .str bid), ("name", .str bid),
        ("url", .str (baseUrl ++ "None")),
        ("image_url", .null), ("review_count", .null),
        ("rating", .null), ("price", .null),
        ("categories", .arr []),
        ("location", .obj
          [("address1", .null), ("city", .null), ("state", .null),
           ("zip_code", .null), ("display_address", .null)]),
        ("phone", .null), ("distance", .null)]

/-- An initial-state blob with the given businesses and total. -/
def initialStateWith (bs : List Json) (total : Int) : Json :=
  .obj [("searchPageProps", .obj
    [("searchResultsProps", .obj
      [("searchResponse", .obj
        [("searchResults", .arr bs), ("totalResults", .num total)])])])]

/-- A well-behaved GraphQL source: each request is answered with exactly
`limit` businesses and the fixed total `T`. -/
def ampleGqlSrc (T : Int) : GqlSource := fun _ req =>
  .ok (.obj [("data", .obj
    [("search", .obj
      [("business", .arr (List.replicate req.limit (.obj [("id", .str "b")]))),
       ("total", .num T)])])])

/-- A page source for scenarios in which the page GET is never issued. -/
def deadPageSrc : PageSource := fun _ _ => .error "unreachable"

/-- A page source serving two businesses through the initial state. -/
def twoBizPageSrc : PageSource := fun _ _ =>
  .ok ⟨some (initialStateWith [bizEntry "alpha", bizEntry "beta"] 2), []⟩

/-- A page source serving fifteen businesses (more than the requested
batch size of ten) with a large reported total. -/
def widePageSrc : PageSource := fun _ _ =>
  .ok ⟨some (initialStateWith (List.replicate 15 (bizEntry "w")) 100), []⟩

/-- A page source whose first page has no businesses. -/
def emptyPageSrc : PageSource := fun _ _ => .ok ⟨none, []⟩

/-- A GraphQL source whose POST always fails with a non-200 status. -/
def failGqlSrc : GqlSource := fun _ _ => .error "GraphQL search failed: 500 Internal Server Error"

/-- A page source that always fails (e.g. a 503 turned into a raise). -/
def failPageSrc : PageSource := fun _ _ => .error "Search failed: 503"

/-- Session with the CSRF token present. -/
def tokSession : Session := ⟨some "tok"⟩

/-- Session with the CSRF token absent. -/
def bareSession : Session := ⟨none⟩

end Yelp

/-! Derived notions used by the claim statements. -/

/-- Key list of the payload of a normalizer result, when it succeeded. -/
def keysOfE (e : Except String Json) : Option (List String) :=
  match e with
  | .ok j => some j.keys
  | .error _ => none

/-- Every element except possibly the last one is truthy (a batch trace
with this property never continued past an empty batch). -/
def truthyExceptLast (l : List Json) : Prop :=
  ∀ i (h : i + 1 < l.length), (l.get ⟨i, Nat.lt_of_succ_lt h⟩).truthy = true

/-- Consecutive iterations advance the offset by exactly the earlier
iteration's requested batch size. -/
def offsetChain (l : List IterRec) : Prop :=
  ∀ i (h : i + 1 < l.length),
    (l.get ⟨i + 1, h⟩).offset =
      (l.get ⟨i, Nat.lt_of_succ_lt h⟩).offset + (l.get ⟨i, Nat.lt_of_succ_lt h⟩).batchSize

/-- Total counterpart of `pyGetD` (meaningful on objects). -/
def objOrD (t : Json) (k : String) (d : Json) : Json :=
  match t with
  | .obj kvs => (kvs.lookup k).getD d
  | _ => d

/-- Total counterpart of `pyHasKey` on objects. -/
def hasKeyB (t : Json) (k : String) : Bool :=
  match t with
  | .obj kvs => kvs.any (fun kv => kv.1 == k)
  | _ => false

/-- The value is a list whose elements are all objects. -/
def allObjs : Json → Bool
  | .arr xs => xs.all Json.isObj
  | _ => false

/-- The field is absent or a list of objects. -/
def arrFieldOk (parent : Json) (k : String) : Bool :=
  allObjs (objOrD parent k (.arr []))

namespace Twitter

/-- Shape conformance for `extract_tweet_data`: a dictionary whose
present fields have the nesting the extractor accesses (any field may be
missing). -/
def tweetShaped (t : Json) : Bool :=
  t.isObj &&
  (objOrD t "legacy" (.obj [])).isObj &&
  (objOrD t "core" (.obj [])).isObj &&
  (objOrD (objOrD t "core" (.obj [])) "user_results" (.obj [])).isObj &&
  (objOrD (objOrD (objOrD t "core" (.obj [])) "user_results" (.obj []))
    "result" (.obj [])).isObj &&
  (objOrD (objOrD (objOrD (objOrD t "core" (.obj [])) "user_results" (.obj []))
    "result" (.obj [])) "legacy" (.obj [])).isObj &&
  (objOrD (objOrD t "legacy" (.obj [])) "entities" (.obj [])).isObj &&
  arrFieldOk (objOrD (objOrD t "legacy" (.obj [])) "entities" (.obj [])) "hashtags" &&
  arrFieldOk (objOrD (objOrD t "legacy" (.obj [])) "entities" (.obj [])) "urls" &&
  arrFieldOk (objOrD (objOrD t "legacy" (.obj [])) "entities" (.obj [])) "user_mentions" &&
  arrFieldOk (objOrD (objOrD t "legacy" (.obj [])) "entities" (.obj [])) "media"

/-- The fixed top-level key set of a canonical tweet record. -/
def canonicalKeys : List String :=
  ["id", "created_at", "text", "retweet_count", "favorite_count",
   "reply_count", "quote_count", "user", "hashtags", "urls", "mentions",
   "media"]

/-- The record `extract_tweet_data` returns for the empty dictionary:
every canonical field at its null/absent marker. -/
def nullTweetRecord : Json :=
  .obj [("id", .null), ("created_at", .null), ("text", .null),
        ("retweet_count", .null), ("favorite_count", .null),
        ("reply_count", .null), ("quote_count", .null),
        ("user", .obj
          [("id", .null), ("name", .null), ("screen_name", .null),
           ("followers_count", .null), ("friends_count", .null),
           ("verified", .bool false)]),
        ("hashtags", .arr []), ("urls", .arr []), ("mentions", .arr []),
        ("media", .arr [])]

/-- The record `extract_tweet_data` returns for `tweetEntry "t"`. -/
def ampleTweetRec : Json :=
  .obj [("id", .str "t"), ("created_at", .null), ("text", .null),
        ("retweet_count", .null), ("favorite_count", .null),
        ("reply_count", .null), ("quote_count", .null),
        ("user", .obj
          [("id", .null), ("name", .null), ("screen_name", .null),
           ("followers_count", .null), ("friends_count", .null),
           ("verified", .bool false)]),
        ("hashtags", .arr []), ("urls", .arr []), ("mentions", .arr []),
        ("media", .arr [])]

end Twitter

namespace Indeed

/-- The fixed key set of a GraphQL-path job record. -/
def gqlKeys : List String :=
  ["id", "title", "company", "location", "salary", "job_types",
   "description", "url", "date_posted"]

/-- The fixed key set of an HTML-path job record. -/
def htmlKeys : List String :=
  ["id", "title", "company", "location", "salary", "description", "url",
   "date_posted"]

/-- A job card with every optional element absent. -/
def emptyCard : JobCard := ⟨none, none, none, none, none, none⟩

end Indeed

namespace Yelp

/-- The fixed key set of an initial-state business record. -/
def initKeys : List String :=
  ["id", "name", "url", "image_url", "review_count", "rating", "price",
   "categories", "location", "phone", "distance"]

/-- The fixed key set of an HTML-path business record. -/
def htmlKeys : List String :=
  ["id", "name", "url", "image_url", "review_count", "rating", "price",
   "categories", "location", "phone"]

/-- A business card with a container and every optional element absent. -/
def emptyBizCard : BizCard := ⟨true, none, none, none, none, none, [], none⟩

/-- What the page path returns for `twoBizPageSrc`: the two normalized
businesses with their reported total. -/
def twoBizResult : Json :=
  .obj [("businesses", .arr [bizRecordOf "alpha", bizRecordOf "beta"]),
        ("total", .num 2),
        ("region", .obj [("center", .obj
          [("latitude", .null), ("longitude", .null)])])]

end Yelp

/-- The element list under a JSON array (empty otherwise). -/
def Json.elemsOf : Json → List Json
  | .arr xs => xs
  | _ => []

namespace Twitter

/-- Total value of one hashtags/urls-comprehension element. -/
def getTotal (k : String) (m : Json) : Json :=
  objOrD m k .null

/-- Total value of one mentions-comprehension element on an object. -/
def mentionTotal (m : Json) : Json :=
  .obj [("screen_name", objOrD m "screen_name" .null),
        ("name", objOrD m "name" .null),
        ("id", objOrD m "id_str" .null)]

/-- Total value of one media-comprehension element on an object. -/
def mediaTotal (m : Json) : Json :=
  .obj [("type", objOrD m "type" .null),
        ("url", objOrD m "media_url_https" .null),
        ("alt_text", objOrD m "ext_alt_text" .null)]

end Twitter

/-! Helper lemmas. -/

theorem exBind_eq_ok {a b : Type} {x : Except String a} {f : a → Except String b} {r : b} :
    x >>= f = .ok r ↔ ∃ v, x = .ok v ∧ f v = .ok r := by
  cases x with
  | error e =>
    simp only [show ((Except.error e : Except String a) >>= f) = Except.error e from rfl]
    simp
  | ok v =>
    simp only [show ((Except.ok v : Except String a) >>= f) = f v from rfl]
    simp

/-- C8: the job-location formatter sends `{city: "Austin", state: "TX"}`
to `"Austin, TX"`, the empty mapping to `"Remote"`, and a country-only
mapping to `"UK"`. -/
theorem claim_C8_format_location :
    Indeed.formatLocation (.obj [("city", .str "Austin"), ("state", .str "TX")])
      = .ok "Austin, TX"
    ∧ Indeed.formatLocation (.obj []) = .ok "Remote"
    ∧ Indeed.formatLocation (.obj [("country", .str "UK")]) = .ok "UK" :=
  ⟨rfl, rfl, rfl⟩

/-- C4: evaluating the Indeed pagination driver at query `engineer`,
location `Austin, TX`, `max_results = 15` (page size 10) against a
well-behaved source shows exactly two batches requested, of sizes 10 and
5, but at `start` offsets 0 and 5: the second request is issued with
`start = page * limit = 1 * 5 = 5`, not 10 as the spec states, because
`search` multiplies the page number by the current (shrunken) batch
size. -/
theorem claim_C4_offset_trace :
    (Indeed.searchAll Indeed.bareSession Indeed.amplePageSrc Indeed.deadGqlSrc
        "engineer" "Austin, TX" 15 5).calls
      = [NetCall.indeedPage "engineer" "Austin, TX" 0 10,
         NetCall.indeedPage "engineer" "Austin, TX" 5 5]
    ∧ (Indeed.searchAll Indeed.bareSession Indeed.amplePageSrc Indeed.deadGqlSrc
        "engineer" "Austin, TX" 15 5).yielded.length = 15
    ∧ (Indeed.searchAll Indeed.bareSession Indeed.amplePageSrc Indeed.deadGqlSrc
        "engineer" "Austin, TX" 15 5).err = none :=
  ⟨rfl, rfl, rfl⟩

/-- C1: counterexample — the Twitter driver can yield more records than
the requested maximum: with `max_results = 1` and a source whose batch
carries two tweets, the run yields two records (the inner yield loop of
`TwitterSearchAPI.search_all` has no per-record cap). -/
theorem claim_C1_counterexample :
    ¬ ((Twitter.searchAll Twitter.overSrc "q" 1 3).yielded.length ≤ 1) := by
  decide

/-- C2: counterexample — a Twitter batch with zero records does not end
the sequence when it carries a Bottom cursor: the first batch below is
empty, yet a second network call is issued. -/
theorem claim_C2_counterexample :
    (Twitter.searchAll Twitter.emptyCursorSrc "q" 5 9).batches
      = [Json.arr [], Json.arr []]
    ∧ (Twitter.searchAll Twitter.emptyCursorSrc "q" 5 9).calls.length = 2 :=
  ⟨rfl, rfl⟩

/-- C3: counterexample — the two paths do not expose the same top-level
key set: the Indeed GraphQL-path record carries `job_types`, which the
HTML-path record lacks, and the Yelp initial-state record carries
`distance`, which the HTML-path record lacks. -/
theorem claim_C3_counterexample :
    keysOfE (Indeed.gqlRecord (.obj [("job", .obj [])])) = some Indeed.gqlKeys
    ∧ (Indeed.cardRecord Indeed.emptyCard).keys = Indeed.htmlKeys
    ∧ Indeed.gqlKeys ≠ Indeed.htmlKeys
    ∧ keysOfE (Yelp.initialStateRecord (.obj [])) = some Yelp.initKeys
    ∧ (Yelp.cardRecord Yelp.emptyBizCard).map Json.keys = some Yelp.htmlKeys
    ∧ Yelp.initKeys ≠ Yelp.htmlKeys := by
  refine ⟨rfl, rfl, ?_, rfl, rfl, ?_⟩ <;> decide

/-- C5: counterexample — a Yelp structured-path query failure does not
reach the caller: the GraphQL source fails every POST, yet the run below
finishes with no exception (`search_graphql` catches the failure, falls
back internally, and the driver parses the page-shaped result as an
empty structured response). -/
theorem claim_C5_counterexample :
    Yelp.failGqlSrc 0 ⟨"sushi", "SF", 0, 5⟩
      = .error "GraphQL search failed: 500 Internal Server Error"
    ∧ (Yelp.searchAll Yelp.tokSession Yelp.failGqlSrc Yelp.twoBizPageSrc
        "sushi" "SF" 5 3).calls
      = [NetCall.yelpGql "sushi" "SF" 0 5,
         NetCall.yelpPage (Yelp.searchParams "sushi" "SF" 0)]
    ∧ (Yelp.searchAll Yelp.tokSession Yelp.failGqlSrc Yelp.twoBizPageSrc
        "sushi" "SF" 5 3).err = none :=
  ⟨rfl, rfl, rfl⟩

/-- C7: counterexample — when the structured POST itself fails, the
driver does not fall back to the page-based path for that batch: the
page path succeeds with two businesses, yet the run yields nothing and
the sequence ends (the internal fallback of `search_graphql` returns a
page-shaped payload which the driver dissects as an empty GraphQL
response). -/
theorem claim_C7_counterexample :
    (Yelp.searchOnce Yelp.twoBizPageSrc "sushi" "SF" 0 5 1).1 = .ok Yelp.twoBizResult
    ∧ (Yelp.searchAll Yelp.tokSession Yelp.failGqlSrc Yelp.twoBizPageSrc
        "sushi" "SF" 5 3).yielded = []
    ∧ (Yelp.searchAll Yelp.tokSession Yelp.failGqlSrc Yelp.twoBizPageSrc
        "sushi" "SF" 5 3).err = none
    ∧ (Yelp.searchAll Yelp.tokSession Yelp.failGqlSrc Yelp.twoBizPageSrc
        "sushi" "SF" 5 3).batches = [Json.arr []] :=
  ⟨rfl, rfl, rfl, rfl⟩

/-- C9: counterexample — the normalizer does not return on every
dictionary: a `legacy` field holding a number makes
`extract_tweet_data` raise (`5 .get(...)` is an AttributeError). -/
theorem claim_C9_counterexample :
    Twitter.extractTweetData (.obj [("legacy", .num 5)])
      = .error "AttributeError: object has no attribute get" :=
  rfl

theorem Indeed.yieldJobs_spec (M : Nat) :
    ∀ (js : List Json) (c : Nat), c < M →
      c ≤ (Indeed.yieldJobs M js c).count ∧ (Indeed.yieldJobs M js c).count ≤ M ∧
      (Indeed.yieldJobs M js c).yielded.length = (Indeed.yieldJobs M js c).count - c := by
  intro js
  induction js with
  | nil =>
    intro c hc
    exact ⟨Nat.le_refl c, Nat.le_of_lt hc, (Nat.sub_self c).symm⟩
  | cons j rest ih =>
    intro c hc
    simp only [Indeed.yieldJobs]
    split
    · exact ⟨Nat.le_refl c, Nat.le_of_lt hc, (Nat.sub_self c).symm⟩
    · split
      · exact ⟨Nat.le_refl c, Nat.le_of_lt hc, (Nat.sub_self c).symm⟩
      · split
        · rename_i r heq hM
          refine ⟨Nat.le_succ c, ?_, ?_⟩
          · show c + 1 ≤ M
            omega
          · show ([r] : List Json).length = c + 1 - c
            simp
        · rename_i r heq hM
          obtain ⟨h1, h2, h3⟩ := ih (c + 1) (by omega)
          refine ⟨?_, ?_, ?_⟩
          · show c ≤ (Indeed.yieldJobs M rest (c + 1)).count
            omega
          · show (Indeed.yieldJobs M rest (c + 1)).count ≤ M
            exact h2
          · show (r :: (Indeed.yieldJobs M rest (c + 1)).yielded).length
                = (Indeed.yieldJobs M rest (c + 1)).count - c
            rw [List.length_cons]
            omega

theorem Indeed.indeedLoop_le (sess : Indeed.Session) (ps : Indeed.PageSource)
    (gs : Indeed.GqlSource) (q l : String) (M : Nat) :
    ∀ (fuel count page k : Nat),
      (Indeed.searchLoop sess ps gs q l M count page k fuel).yielded.length ≤ M - count := by
  intro fuel
  induction fuel with
  | zero => intro count page k; exact Nat.zero_le _
  | succ fuel ih =>
    intro count page k
    simp only [Indeed.searchLoop]
    split
    · rename_i hcm
      split
      · exact Nat.zero_le _
      · rename_i hb
        split
        · exact Nat.zero_le _
        · rename_i resp heq
          split
          · exact Nat.zero_le _
          · rename_i jobs hasNext heq2
            split
            · exact Nat.zero_le _
            · split
              · rename_i js htr
                split
                · rename_i e heq3
                  obtain ⟨h1, h2, h3⟩ := Indeed.yieldJobs_spec M js count hcm
                  show (Indeed.yieldJobs M js count).yielded.length ≤ M - count
                  omega
                · rename_i heq3
                  split
                  · obtain ⟨h1, h2, h3⟩ := Indeed.yieldJobs_spec M js count hcm
                    show (Indeed.yieldJobs M js count).yielded.length ≤ M - count
                    omega
                  · obtain ⟨h1, h2, h3⟩ := Indeed.yieldJobs_spec M js count hcm
                    have hrest := ih (Indeed.yieldJobs M js count).count (page + 1)
                      (Indeed.searchOnce sess ps gs q l page (min 10 (M - count)) k).2.1
                    show ((Indeed.yieldJobs M js count).yielded ++
                        (Indeed.searchLoop sess ps gs q l M
                          (Indeed.yieldJobs M js count).count (page + 1)
                          (Indeed.searchOnce sess ps gs q l page (min 10 (M - count)) k).2.1
                          fuel).yielded).length ≤ M - count
                    rw [List.length_append]
                    omega
              · exact Nat.zero_le _
    · exact Nat.zero_le _

theorem Yelp.yieldCapped_spec (M : Nat) :
    ∀ (bs : List Json) (c : Nat), c < M →
      c ≤ (Yelp.yieldCapped M bs c).2 ∧ (Yelp.yieldCapped M bs c).2 ≤ M ∧
      (Yelp.yieldCapped M bs c).1.length = (Yelp.yieldCapped M bs c).2 - c := by
  intro bs
  induction bs with
  | nil =>
    intro c hc
    exact ⟨Nat.le_refl c, Nat.le_of_lt hc, (Nat.sub_self c).symm⟩
  | cons b rest ih =>
    intro c hc
    simp only [Yelp.yieldCapped]
    split
    · rename_i hM
      refine ⟨Nat.le_succ c, ?_, ?_⟩
      · show c + 1 ≤ M
        omega
      · show ([b] : List Json).length = c + 1 - c
        simp
    · rename_i hM
      obtain ⟨h1, h2, h3⟩ := ih (c + 1) (by omega)
      refine ⟨?_, ?_, ?_⟩
      · show c ≤ (Yelp.yieldCapped M rest (c + 1)).2
        omega
      · show (Yelp.yieldCapped M rest (c + 1)).2 ≤ M
        exact h2
      · show (b :: (Yelp.yieldCapped M rest (c + 1)).1).length
            = (Yelp.yieldCapped M rest (c + 1)).2 - c
        rw [List.length_cons]
        omega

theorem Yelp.stepBiz_inl (M : Nat) (biz tot : Json) (count : Nat) (hc : count < M)
    {ys b : List Json} {e : Option String}
    (h : Yelp.stepBiz M biz tot count = .inl (ys, b, e)) :
    ys.length ≤ M - count := by
  unfold Yelp.stepBiz at h
  split at h
  · simp only [Sum.inl.injEq, Prod.mk.injEq] at h
    rw [← h.1]
    exact Nat.zero_le _
  · split at h
    · rename_i bs htr
      dsimp only at h
      split at h
      · simp only [Sum.inl.injEq, Prod.mk.injEq] at h
        obtain ⟨h1, -⟩ := h
        rw [← h1]
        obtain ⟨u1, u2, u3⟩ := Yelp.yieldCapped_spec M bs count hc
        omega
      · split at h
        · simp only [Sum.inl.injEq, Prod.mk.injEq] at h
          obtain ⟨h1, -⟩ := h
          rw [← h1]
          obtain ⟨u1, u2, u3⟩ := Yelp.yieldCapped_spec M bs count hc
          omega
        · exact absurd h (by simp)
    · simp only [Sum.inl.injEq, Prod.mk.injEq] at h
      rw [← h.1]
      exact Nat.zero_le _

theorem Yelp.stepBiz_inr (M : Nat) (biz tot : Json) (count : Nat) (hc : count < M)
    {ys : List Json} {b : Json} {c2 : Nat}
    (h : Yelp.stepBiz M biz tot count = .inr (ys, b, c2)) :
    count ≤ c2 ∧ c2 ≤ M ∧ ys.length = c2 - count ∧ b.truthy = true := by
  unfold Yelp.stepBiz at h
  split at h
  · exact absurd h (by simp)
  · rename_i htr
    split at h
    · rename_i bs
      dsimp only at h
      split at h
      · exact absurd h (by simp)
      · split at h
        · exact absurd h (by simp)
        · simp only [Sum.inr.injEq, Prod.mk.injEq] at h
          obtain ⟨h1, h2, h3⟩ := h
          obtain ⟨u1, u2, u3⟩ := Yelp.yieldCapped_spec M bs count hc
          refine ⟨by omega, by omega, ?_, ?_⟩
          · rw [← h1, ← h3]
            exact u3
          · rw [← h2]
            simpa using htr
    · exact absurd h (by simp)

theorem Yelp.yelpLoop_le (sess : Yelp.Session) (gs : Yelp.GqlSource)
    (ps : Yelp.PageSource) (term loc : String) (M : Nat) :
    ∀ (fuel count offset k : Nat),
      (Yelp.searchLoop sess gs ps term loc M count offset k fuel).yielded.length ≤ M - count := by
  intro fuel
  induction fuel with
  | zero => intro count offset k; exact Nat.zero_le _
  | succ fuel ih =>
    intro count offset k
    simp only [Yelp.searchLoop]
    split
    · rename_i hcm
      split
      · exact Nat.zero_le _
      · rename_i hb
        split
        · rename_i biz tot heq
          split
          · rename_i ys b e hsb
            dsimp only
            exact Yelp.stepBiz_inl M biz tot count hcm hsb
          · rename_i ys b c2 hsb
            obtain ⟨h1, h2, h3, -⟩ := Yelp.stepBiz_inr M biz tot count hcm hsb
            dsimp only
            rw [List.length_append]
            have hrest := ih c2 (offset + min 10 (M - count))
              (Yelp.searchGraphql sess gs ps term loc offset (min 10 (M - count)) k).2.1
            omega
        · rename_i heq
          split
          · exact Nat.zero_le _
          · rename_i biz tot heq2
            split
            · rename_i ys b e hsb
              dsimp only
              exact Yelp.stepBiz_inl M biz tot count hcm hsb
            · rename_i ys b c2 hsb
              obtain ⟨h1, h2, h3, -⟩ := Yelp.stepBiz_inr M biz tot count hcm hsb
              dsimp only
              rw [List.length_append]
              have hrest := ih c2 (offset + min 10 (M - count))
                (Yelp.searchOnce ps term loc offset (min 10 (M - count))
                  (Yelp.searchGraphql sess gs ps term loc offset (min 10 (M - count)) k).2.1).2.1
              omega
    · exact Nat.zero_le _

theorem Twitter.yieldTweets_len :
    ∀ es : List Json,
      (Twitter.yieldTweets es).yielded.length = (Twitter.yieldTweets es).numTweets := by
  intro es
  induction es with
  | nil => rfl
  | cons entry rest ih =>
    simp only [Twitter.yieldTweets]
    repeat' split
    all_goals first
      | rfl
      | exact ih
      | (dsimp only; rw [List.length_cons, ih])

theorem Twitter.twitterLoop_le (src : Twitter.Source) (q : String) (M : Nat)
    (hsrc : ∀ k r j, src k r = .ok j → Twitter.respCount j ≤ r.count) :
    ∀ (fuel count k : Nat) (cursor : Json), count ≤ M →
      count + (Twitter.searchLoop src q M count k cursor fuel).yielded.length ≤ M := by
  intro fuel
  induction fuel with
  | zero => intro count k cursor h; simpa using h
  | succ fuel ih =>
    intro count k cursor h
    simp only [Twitter.searchLoop]
    split
    · rename_i hcm
      split
      · simpa using h
      · rename_i hb
        split
        · simpa using h
        · rename_i resp heq
          split
          · simpa using h
          · rename_i es heq2
            split
            · simpa using h
            · rename_i cur heq3
              have hcnt : (Twitter.yieldTweets es).numTweets ≤ min 20 (M - count) := by
                have hh := hsrc k ⟨q, min 20 (M - count), cursor⟩ resp heq
                simpa [Twitter.respCount, heq2] using hh
              have hlen := Twitter.yieldTweets_len es
              split
              · rename_i e heq4
                dsimp only
                omega
              · rename_i heq4
                split
                · dsimp only
                  omega
                · rename_i hcont
                  dsimp only
                  rw [List.length_append]
                  have hrest := ih (count + (Twitter.yieldTweets es).numTweets)
                    (k + 1) cur (by omega)
                  omega
    · simpa using h

theorem Indeed.extractJobs_html (cards : List Indeed.JobCard) (batch : Nat) :
    Indeed.extractJobs (Indeed.parseHtmlResults cards) batch
      = .ok (.arr (cards.map Indeed.cardRecord),
             decide ((cards.map Indeed.cardRecord).length ≥ batch)) := rfl

theorem Indeed.searchOnce_ample (q l : String) (page limit k : Nat) :
    Indeed.searchOnce Indeed.bareSession Indeed.amplePageSrc Indeed.deadGqlSrc q l page limit k
      = (.ok (Indeed.parseHtmlResults (List.replicate limit Indeed.ampleCard)), k + 1,
         [NetCall.indeedPage q l (page * limit) limit]) := rfl

theorem Json.truthy_arr_of_pos (n : Nat) (hn : 0 < n) (r : Json) :
    (Json.arr (List.replicate n r)).truthy = true := by
  cases n with
  | zero => omega
  | succ m => simp [Json.truthy, List.replicate_succ]

theorem Indeed.yieldJobs_all (M : Nat) (r : Json) (hr : pyHasKey r "job" = .ok false) :
    ∀ (n c : Nat), c + n ≤ M →
      Indeed.yieldJobs M (List.replicate n r) c = ⟨List.replicate n r, c + n, none⟩ := by
  intro n
  induction n with
  | zero => intro c h; simp [Indeed.yieldJobs]
  | succ n ih =>
    intro c h
    rw [List.replicate_succ]
    simp only [Indeed.yieldJobs, hr]
    by_cases hM : M ≤ c + 1
    · have hn : n = 0 := by omega
      subst hn
      simp only [if_pos hM]
      simp [List.replicate_succ]
    · simp only [if_neg hM]
      rw [ih (c + 1) (by omega)]
      simp [List.replicate_succ]
      omega

theorem Indeed.indeedAmple_exact (q l : String) (M : Nat) :
    ∀ (fuel count page k : Nat), count < M → M - count ≤ fuel →
      (Indeed.searchLoop Indeed.bareSession Indeed.amplePageSrc Indeed.deadGqlSrc q l M
        count page k fuel).yielded.length = M - count := by
  intro fuel
  induction fuel with
  | zero => intro count page k h1 h2; omega
  | succ fuel ih =>
    intro count page k hcm hfu
    have hb : 0 < min 10 (M - count) := by omega
    have hcb : count + min 10 (M - count) ≤ M := by omega
    have htr := Json.truthy_arr_of_pos (min 10 (M - count)) hb
      (Indeed.cardRecord Indeed.ampleCard)
    simp only [Indeed.searchLoop]
    rw [if_pos hcm, if_neg (show ¬ min 10 (M - count) = 0 by omega)]
    rw [Indeed.searchOnce_ample]
    dsimp only
    rw [Indeed.extractJobs_html]
    dsimp only
    simp only [List.map_replicate, List.length_replicate]
    simp only [htr, Bool.not_true, Bool.false_eq_true, if_false]
    rw [Indeed.yieldJobs_all M (Indeed.cardRecord Indeed.ampleCard) rfl
      (min 10 (M - count)) count hcb]
    dsimp only
    by_cases hM : M ≤ count + min 10 (M - count)
    · simp [hM]
      omega
    · simp [hM]
      rw [ih (count + min 10 (M - count)) (page + 1) (k + 1) (by omega) (by omega)]
      omega

theorem Yelp.searchGraphql_ample (T : Int) (term loc : String) (offset limit k : Nat) :
    Yelp.searchGraphql Yelp.tokSession (Yelp.ampleGqlSrc T) Yelp.deadPageSrc
        term loc offset limit k
      = (.ok (.obj [("data", .obj [("search", .obj
          [("business", .arr (List.replicate limit (.obj [("id", .str "b")]))),
           ("total", .num T)])])]), k + 1,
         [NetCall.yelpGql term loc offset limit]) := rfl

theorem Yelp.gqlParse_ample (T : Int) (limit : Nat) :
    Yelp.gqlParse (.ok (.obj [("data", .obj [("search", .obj
        [("business", .arr (List.replicate limit (.obj [("id", .str "b")]))),
         ("total", .num T)])])]))
      = .ok (.arr (List.replicate limit (.obj [("id", .str "b")])), .num T) := rfl

theorem Yelp.yieldCapped_all (M : Nat) (r : Json) :
    ∀ (n c : Nat), c + n ≤ M →
      Yelp.yieldCapped M (List.replicate n r) c = (List.replicate n r, c + n) := by
  intro n
  induction n with
  | zero => intro c h; simp [Yelp.yieldCapped]
  | succ n ih =>
    intro c h
    rw [List.replicate_succ]
    simp only [Yelp.yieldCapped]
    by_cases hM : M ≤ c + 1
    · have hn : n = 0 := by omega
      subst hn
      simp only [if_pos hM]
      simp [List.replicate_succ]
    · simp only [if_neg hM]
      rw [ih (c + 1) (by omega)]
      simp [List.replicate_succ]
      omega

theorem Yelp.stepBiz_ample_stop (M : Nat) (T : Int) (count batch : Nat)
    (hb : 0 < batch) (hcb : count + batch ≤ M) (hM : M ≤ count + batch) :
    Yelp.stepBiz M (.arr (List.replicate batch (.obj [("id", .str "b")]))) (.num T) count
      = .inl (List.replicate batch (.obj [("id", .str "b")]),
              [Json.arr (List.replicate batch (.obj [("id", .str "b")]))], none) := by
  unfold Yelp.stepBiz
  rw [Json.truthy_arr_of_pos batch hb]
  simp only [Bool.not_true, Bool.false_eq_true, if_false]
  rw [Yelp.yieldCapped_all M _ batch count hcb]
  have hle : decide (M ≤ count + batch) = true := by simp [hM]
  simp only [pyGeNat, hle, Bool.or_true, if_true]

theorem Yelp.stepBiz_ample_go (M : Nat) (T : Int) (count batch : Nat)
    (hb : 0 < batch) (hlt : count + batch < M) (hMT : (M : Int) ≤ T) :
    Yelp.stepBiz M (.arr (List.replicate batch (.obj [("id", .str "b")]))) (.num T) count
      = .inr (List.replicate batch (.obj [("id", .str "b")]),
              Json.arr (List.replicate batch (.obj [("id", .str "b")])), count + batch) := by
  unfold Yelp.stepBiz
  rw [Json.truthy_arr_of_pos batch hb]
  simp only [Bool.not_true, Bool.false_eq_true, if_false]
  rw [Yelp.yieldCapped_all M _ batch count (by omega)]
  have hge : decide (((count + batch : Nat) : Int) ≥ T) = false := by
    rw [decide_eq_false_iff_not]
    push_cast
    omega
  have hle : decide (M ≤ count + batch) = false := by
    rw [decide_eq_false_iff_not]
    omega
  simp only [pyGeNat, hge, hle, Bool.or_self, Bool.false_eq_true, if_false]

theorem Yelp.yelpAmple_exact (term loc : String) (M : Nat) (T : Int) (hMT : (M : Int) ≤ T) :
    ∀ (fuel count offset k : Nat), count < M → M - count ≤ fuel →
      (Yelp.searchLoop Yelp.tokSession (Yelp.ampleGqlSrc T) Yelp.deadPageSrc term loc M
        count offset k fuel).yielded.length = M - count := by
  intro fuel
  induction fuel with
  | zero => intro count offset k h1 h2; omega
  | succ fuel ih =>
    intro count offset k hcm hfu
    have hb : 0 < min 10 (M - count) := by omega
    have hcb : count + min 10 (M - count) ≤ M := by omega
    simp only [Yelp.searchLoop]
    rw [if_pos hcm, if_neg (show ¬ min 10 (M - count) = 0 by omega)]
    rw [Yelp.searchGraphql_ample]
    dsimp only
    rw [Yelp.gqlParse_ample]
    dsimp only
    by_cases hM : M ≤ count + min 10 (M - count)
    · rw [Yelp.stepBiz_ample_stop M T count (min 10 (M - count)) hb hcb hM]
      dsimp only
      simp only [List.length_replicate]
      omega
    · rw [Yelp.stepBiz_ample_go M T count (min 10 (M - count)) hb (by omega) hMT]
      dsimp only
      simp only [List.length_append, List.length_replicate]
      rw [ih (count + min 10 (M - count)) (offset + min 10 (M - count)) (k + 1)
        (by omega) (by omega)]
      omega

theorem Twitter.collectEntries_one (es : List Json) :
    Twitter.collectEntries
        [Json.obj [("type", .str "TimelineAddEntries"), ("entries", .arr es)]]
      = .ok es := by
  show Except.ok (es ++ []) = .ok es
  rw [List.append_nil]

theorem Twitter.entriesOf_resp (es : List Json) :
    Twitter.entriesOf (Twitter.respWithEntries es) = .ok es := by
  show Twitter.collectEntries
      [Json.obj [("type", .str "TimelineAddEntries"), ("entries", .arr es)]] = .ok es
  exact Twitter.collectEntries_one es

theorem Twitter.findCursor_ample (n : Nat) :
    Twitter.findCursor
        (List.replicate n (Twitter.tweetEntry "t") ++ [Twitter.cursorEntry "cur"])
      = .ok (.str "cur") := by
  induction n with
  | zero => rfl
  | succ n ih =>
    rw [List.replicate_succ, List.cons_append]
    show Twitter.findCursor
        (List.replicate n (Twitter.tweetEntry "t") ++ [Twitter.cursorEntry "cur"])
      = .ok (.str "cur")
    exact ih

theorem Twitter.extract_ample :
    Twitter.extractTweetData (Json.obj [("rest_id", .str "t")]) = .ok Twitter.ampleTweetRec :=
  rfl

theorem Twitter.yieldTweets_ample (n : Nat) :
    Twitter.yieldTweets
        (List.replicate n (Twitter.tweetEntry "t") ++ [Twitter.cursorEntry "cur"])
      = ⟨List.replicate n Twitter.ampleTweetRec,
         List.replicate n (.obj [("rest_id", .str "t")]), n, none⟩ := by
  induction n with
  | zero => rfl
  | succ n ih =>
    rw [List.replicate_succ, List.cons_append]
    show (⟨Twitter.ampleTweetRec ::
        (Twitter.yieldTweets (List.replicate n (Twitter.tweetEntry "t")
          ++ [Twitter.cursorEntry "cur"])).yielded,
        Json.obj [("rest_id", .str "t")] ::
        (Twitter.yieldTweets (List.replicate n (Twitter.tweetEntry "t")
          ++ [Twitter.cursorEntry "cur"])).tweets,
        (Twitter.yieldTweets (List.replicate n (Twitter.tweetEntry "t")
          ++ [Twitter.cursorEntry "cur"])).numTweets + 1,
        (Twitter.yieldTweets (List.replicate n (Twitter.tweetEntry "t")
          ++ [Twitter.cursorEntry "cur"])).err⟩ : Twitter.BatchOut)
      = ⟨List.replicate (n + 1) Twitter.ampleTweetRec,
         List.replicate (n + 1) (.obj [("rest_id", .str "t")]), n + 1, none⟩
    rw [ih]
    simp [List.replicate_succ]

theorem Twitter.ampleSrc_eq (k : Nat) (r : Twitter.Req) :
    Twitter.ampleSrc k r
      = .ok (Twitter.respWithEntries
          (List.replicate r.count (Twitter.tweetEntry "t") ++ [Twitter.cursorEntry "cur"])) :=
  rfl

theorem Twitter.twitterAmple_exact (q : String) (M : Nat) :
    ∀ (fuel count k : Nat) (cursor : Json), count < M → M - count ≤ fuel →
      (Twitter.searchLoop Twitter.ampleSrc q M count k cursor fuel).yielded.length
        = M - count := by
  intro fuel
  induction fuel with
  | zero => intro count k cursor h1 h2; omega
  | succ fuel ih =>
    intro count k cursor hcm hfu
    have hb : 0 < min 20 (M - count) := by omega
    have hcb : count + min 20 (M - count) ≤ M := by omega
    simp only [Twitter.searchLoop]
    rw [if_pos hcm, if_neg (show ¬ min 20 (M - count) = 0 by omega)]
    rw [Twitter.ampleSrc_eq]
    dsimp only
    rw [Twitter.entriesOf_resp]
    dsimp only
    rw [Twitter.findCursor_ample]
    dsimp only
    rw [Twitter.yieldTweets_ample]
    dsimp only
    have hcur : (Json.str "cur").truthy = true := rfl
    rw [hcur]
    simp only [Bool.not_true, Bool.false_or]
    by_cases hM : M ≤ count + min 20 (M - count)
    · have hle : decide (M ≤ count + min 20 (M - count)) = true := by simp [hM]
      simp only [hle, if_true]
      simp only [List.length_replicate]
      omega
    · have hle : decide (M ≤ count + min 20 (M - count)) = false := by
        rw [decide_eq_false_iff_not]
        omega
      simp only [hle, Bool.false_eq_true, if_false]
      simp only [List.length_append, List.length_replicate]
      rw [ih (count + min 20 (M - count)) (k + 1) (.str "cur") (by omega) (by omega)]
      omega

theorem exBind_ok {a b : Type} (x : a) (f : a → Except String b) :
    ((Except.ok x : Except String a) >>= f) = f x := rfl

theorem pyGetD_of_isObj {t : Json} (h : t.isObj = true) (k : String) (d : Json) :
    pyGetD t k d = .ok (objOrD t k d) := by
  cases t <;> first | rfl | simp [Json.isObj] at h

theorem pyHasKey_of_isObj {t : Json} (h : t.isObj = true) (k : String) :
    pyHasKey t k = .ok (hasKeyB t k) := by
  cases t <;> first | rfl | simp [Json.isObj] at h

theorem mapOrFail_map {a b : Type} (f : a → Except String b) (g : a → b) :
    ∀ xs : List a, (∀ x ∈ xs, f x = .ok (g x)) → mapOrFail f xs = .ok (xs.map g) := by
  intro xs
  induction xs with
  | nil => intro h; rfl
  | cons x rest ih =>
    intro h
    have hx : f x = .ok (g x) := h x (by simp)
    have hrest : mapOrFail f rest = .ok (rest.map g) := ih (fun z hz => h z (by simp [hz]))
    show (f x >>= fun y => mapOrFail f rest >>= fun ys => pure (y :: ys)) = .ok ((x :: rest).map g)
    rw [hx, exBind_ok, hrest, exBind_ok]
    rfl

theorem Twitter.pyMapGet_of_allObjs {v : Json} (h : allObjs v = true) (k : String) :
    Twitter.pyMapGet v k = .ok (.arr (v.elemsOf.map (Twitter.getTotal k))) := by
  cases v with
  | arr xs =>
    simp only [allObjs, List.all_eq_true] at h
    have hall : ∀ x ∈ xs, pyGet x k = .ok (Twitter.getTotal k x) := by
      intro x hx
      simpa [pyGet, Twitter.getTotal] using pyGetD_of_isObj (h x hx) k Json.null
    show (mapOrFail (fun m => pyGet m k) xs >>= fun ys => pure (Json.arr ys))
        = .ok (.arr ((Json.arr xs).elemsOf.map (Twitter.getTotal k)))
    rw [mapOrFail_map (fun m => pyGet m k) (Twitter.getTotal k) xs hall, exBind_ok]
    rfl
  | null => simp [allObjs] at h
  | bool b => simp [allObjs] at h
  | num n => simp [allObjs] at h
  | str st => simp [allObjs] at h
  | obj kvs => simp [allObjs] at h

theorem Twitter.mentionRec_of_isObj {m : Json} (h : m.isObj = true) :
    Twitter.mentionRec m = .ok (Twitter.mentionTotal m) := by
  simp only [Twitter.mentionRec, pyGet, pyGetD_of_isObj h, exBind_ok]
  rfl

theorem Twitter.mediaRec_of_isObj {m : Json} (h : m.isObj = true) :
    Twitter.mediaRec m = .ok (Twitter.mediaTotal m) := by
  simp only [Twitter.mediaRec, pyGet, pyGetD_of_isObj h, exBind_ok]
  rfl

theorem Twitter.pyMapMentions_of_allObjs {v : Json} (h : allObjs v = true) :
    Twitter.pyMapMentions v = .ok (.arr (v.elemsOf.map Twitter.mentionTotal)) := by
  cases v with
  | arr xs =>
    simp only [allObjs, List.all_eq_true] at h
    have hall : ∀ x ∈ xs, Twitter.mentionRec x = .ok (Twitter.mentionTotal x) :=
      fun x hx => Twitter.mentionRec_of_isObj (h x hx)
    show (mapOrFail Twitter.mentionRec xs >>= fun ys => pure (Json.arr ys))
        = .ok (.arr ((Json.arr xs).elemsOf.map Twitter.mentionTotal))
    rw [mapOrFail_map Twitter.mentionRec Twitter.mentionTotal xs hall, exBind_ok]
    rfl
  | null => simp [allObjs] at h
  | bool b => simp [allObjs] at h
  | num n => simp [allObjs] at h
  | str st => simp [allObjs] at h
  | obj kvs => simp [allObjs] at h

theorem Twitter.pyMapMedia_of_allObjs {v : Json} (h : allObjs v = true) :
    Twitter.pyMapMedia v = .ok (.arr (v.elemsOf.map Twitter.mediaTotal)) := by
  cases v with
  | arr xs =>
    simp only [allObjs, List.all_eq_true] at h
    have hall : ∀ x ∈ xs, Twitter.mediaRec x = .ok (Twitter.mediaTotal x) :=
      fun x hx => Twitter.mediaRec_of_isObj (h x hx)
    show (mapOrFail Twitter.mediaRec xs >>= fun ys => pure (Json.arr ys))
        = .ok (.arr ((Json.arr xs).elemsOf.map Twitter.mediaTotal))
    rw [mapOrFail_map Twitter.mediaRec Twitter.mediaTotal xs hall, exBind_ok]
    rfl
  | null => simp [allObjs] at h
  | bool b => simp [allObjs] at h
  | num n => simp [allObjs] at h
  | str st => simp [allObjs] at h
  | obj kvs => simp [allObjs] at h


set_option maxHeartbeats 1000000 in
theorem Twitter.extract_shaped (t : Json) (h : Twitter.tweetShaped t = true) :
    keysOfE (Twitter.extractTweetData t) = some Twitter.canonicalKeys := by
  unfold Twitter.tweetShaped at h
  simp only [Bool.and_eq_true] at h
  obtain ⟨⟨⟨⟨⟨⟨⟨⟨⟨⟨h1, h2⟩, h3⟩, h4⟩, h5⟩, h6⟩, h7⟩, h8⟩, h9⟩, h10⟩, h11⟩ := h
  have h8a : allObjs (objOrD (objOrD (objOrD t "legacy" (.obj [])) "entities" (.obj []))
      "hashtags" (.arr [])) = true := h8
  have h9a : allObjs (objOrD (objOrD (objOrD t "legacy" (.obj [])) "entities" (.obj []))
      "urls" (.arr [])) = true := h9
  have h10a : allObjs (objOrD (objOrD (objOrD t "legacy" (.obj [])) "entities" (.obj []))
      "user_mentions" (.arr [])) = true := h10
  have h11a : allObjs (objOrD (objOrD (objOrD t "legacy" (.obj [])) "entities" (.obj []))
      "media" (.arr [])) = true := h11
  simp only [Twitter.extractTweetData, pyGet]
  repeat first
    | rw [exBind_ok]
    | rw [pyGetD_of_isObj h1]
    | rw [pyGetD_of_isObj h2]
    | rw [pyGetD_of_isObj h3]
    | rw [pyGetD_of_isObj h4]
    | rw [pyGetD_of_isObj h5]
    | rw [pyGetD_of_isObj h6]
    | rw [pyGetD_of_isObj h7]
    | rw [Twitter.pyMapGet_of_allObjs h8a]
    | rw [Twitter.pyMapGet_of_allObjs h9a]
    | rw [Twitter.pyMapMentions_of_allObjs h10a]
    | rw [pyHasKey_of_isObj h7]
  by_cases hm : hasKeyB (objOrD (objOrD t "legacy" (.obj [])) "entities" (.obj []))
      "media" = true
  · rw [if_pos hm]
    repeat first
      | rw [exBind_ok]
      | rw [pyGetD_of_isObj h2]
      | rw [pyGetD_of_isObj h7]
      | rw [Twitter.pyMapMedia_of_allObjs h11a]
    rfl
  · rw [if_neg hm]
    rfl

/-- C9 (amended): the Twitter normalizer returns without raising on every
shape-conformant dictionary (arbitrary fields may be missing), always
with the fixed canonical key set; on the empty dictionary every canonical
field is its null/absent marker.  (As stated over arbitrary dictionaries
the claim fails: see the counterexample, where a present field of the
wrong shape raises.) -/
theorem claim_C9_amended :
    (∀ t : Json, Twitter.tweetShaped t = true →
      keysOfE (Twitter.extractTweetData t) = some Twitter.canonicalKeys)
    ∧ Twitter.extractTweetData (.obj []) = .ok Twitter.nullTweetRecord :=
  ⟨Twitter.extract_shaped, rfl⟩

/-- Witness for C9 at the empty dictionary. -/
theorem claim_C9_witness :
    Twitter.tweetShaped (.obj []) = true
    ∧ keysOfE (Twitter.extractTweetData (.obj [])) = some Twitter.canonicalKeys :=
  ⟨rfl, claim_C9_amended.1 (.obj []) rfl⟩

theorem Indeed.indeedCardRecord_keys (card : Indeed.JobCard) :
    (Indeed.cardRecord card).keys = Indeed.htmlKeys := rfl

theorem Indeed.gqlRecord_keys (j r : Json) (h : Indeed.gqlRecord j = .ok r) :
    r.keys = Indeed.gqlKeys := by
  unfold Indeed.gqlRecord at h
  rw [exBind_eq_ok] at h; obtain ⟨jd, -, h⟩ := h
  rw [exBind_eq_ok] at h; obtain ⟨key, -, h⟩ := h
  rw [exBind_eq_ok] at h; obtain ⟨title, -, h⟩ := h
  rw [exBind_eq_ok] at h; obtain ⟨company, -, h⟩ := h
  rw [exBind_eq_ok] at h; obtain ⟨companyName, -, h⟩ := h
  rw [exBind_eq_ok] at h; obtain ⟨loc, -, h⟩ := h
  rw [exBind_eq_ok] at h; obtain ⟨locStr, -, h⟩ := h
  rw [exBind_eq_ok] at h; obtain ⟨salSnippet, -, h⟩ := h
  rw [exBind_eq_ok] at h; obtain ⟨salText, -, h⟩ := h
  rw [exBind_eq_ok] at h; obtain ⟨jobTypes, -, h⟩ := h
  rw [exBind_eq_ok] at h; obtain ⟨desc, -, h⟩ := h
  rw [exBind_eq_ok] at h; obtain ⟨key2, -, h⟩ := h
  rw [exBind_eq_ok] at h; obtain ⟨datePosted, -, h⟩ := h
  injection h with h2
  rw [← h2]
  rfl

theorem Yelp.yelpCardRecord_keys (card : Yelp.BizCard) (r : Json)
    (h : Yelp.cardRecord card = some r) : r.keys = Yelp.htmlKeys := by
  unfold Yelp.cardRecord at h
  split at h
  · exact absurd h (by simp)
  · injection h with h2
    rw [← h2]
    rfl

theorem Yelp.initialStateRecord_keys (bd r : Json)
    (h : Yelp.initialStateRecord bd = .ok r) : r.keys = Yelp.initKeys := by
  unfold Yelp.initialStateRecord at h
  rw [exBind_eq_ok] at h; obtain ⟨bid, -, h⟩ := h
  rw [exBind_eq_ok] at h; obtain ⟨name, -, h⟩ := h
  rw [exBind_eq_ok] at h; obtain ⟨bizUrl, -, h⟩ := h
  rw [exBind_eq_ok] at h; obtain ⟨photo, -, h⟩ := h
  rw [exBind_eq_ok] at h; obtain ⟨reviewCount, -, h⟩ := h
  rw [exBind_eq_ok] at h; obtain ⟨rating, -, h⟩ := h
  rw [exBind_eq_ok] at h; obtain ⟨price, -, h⟩ := h
  rw [exBind_eq_ok] at h; obtain ⟨cats, -, h⟩ := h
  try dsimp only at h
  split at h
  · rw [exBind_eq_ok] at h; obtain ⟨catRecs, -, h⟩ := h
    try dsimp only at h
    rw [exBind_eq_ok] at h; obtain ⟨addr, -, h⟩ := h
    rw [exBind_eq_ok] at h; obtain ⟨neighborhoods, -, h⟩ := h
    try dsimp only at h
    split at h
    · rw [exBind_eq_ok] at h; obtain ⟨city, -, h⟩ := h
      try dsimp only at h
      rw [exBind_eq_ok] at h; obtain ⟨addr2, -, h⟩ := h
      rw [exBind_eq_ok] at h; obtain ⟨phone, -, h⟩ := h
      rw [exBind_eq_ok] at h; obtain ⟨distance, -, h⟩ := h
      injection h with h2
      rw [← h2]
      rfl
    · exact absurd (show (Except.error "IndexError: list index out of range"
        : Except String Json) = Except.ok r from h) (by simp)
    · exact absurd (show (Except.error "TypeError: object is not subscriptable"
        : Except String Json) = Except.ok r from h) (by simp)
  · exact absurd (show (Except.error "TypeError: object is not iterable"
      : Except String Json) = Except.ok r from h) (by simp)

/-- C3 (amended): each record builder has a fixed top-level key set, but
the two paths differ by exactly one key per domain: the Indeed HTML-path
record set is the GraphQL-path set minus `job_types`, and the Yelp
HTML-path record set is the initial-state set minus `distance`. -/
theorem claim_C3_amended :
    (∀ j r, Indeed.gqlRecord j = .ok r → r.keys = Indeed.gqlKeys)
    ∧ (∀ card, (Indeed.cardRecord card).keys = Indeed.htmlKeys)
    ∧ Indeed.gqlKeys.erase "job_types" = Indeed.htmlKeys
    ∧ (∀ bd r, Yelp.initialStateRecord bd = .ok r → r.keys = Yelp.initKeys)
    ∧ (∀ card r, Yelp.cardRecord card = some r → r.keys = Yelp.htmlKeys)
    ∧ Yelp.initKeys.erase "distance" = Yelp.htmlKeys := by
  refine ⟨Indeed.gqlRecord_keys, Indeed.indeedCardRecord_keys, ?_,
    Yelp.initialStateRecord_keys, Yelp.yelpCardRecord_keys, ?_⟩ <;> rfl

/-- Witness for C3 at concrete records. -/
theorem claim_C3_witness :
    (Json.obj [("id", .null), ("title", .null), ("company", .null),
       ("location", .str "Remote"), ("salary", .null), ("job_types", .arr []),
       ("description", .null),
       ("url", .str "https://www.indeed.com/viewjob?jk=None"),
       ("date_posted", .null)]).keys = Indeed.gqlKeys :=
  claim_C3_amended.1 (.obj [("job", .obj [])]) _ rfl

/-- C1 (amended): the Indeed and Yelp drivers yield at most `max_results`
records against every source; the Twitter driver does so provided every
batch carries at most the requested count (otherwise it can over-yield,
see the counterexample); and against a well-behaved source with at least
`max_results` available records and no failures, each of the three
drivers yields exactly `max_results` records. -/
theorem claim_C1_amended :
    (∀ (sess : Indeed.Session) (ps : Indeed.PageSource) (gs : Indeed.GqlSource)
        (q l : String) (M fuel : Nat),
      (Indeed.searchAll sess ps gs q l M fuel).yielded.length ≤ M)
    ∧ (∀ (sess : Yelp.Session) (gs : Yelp.GqlSource) (ps : Yelp.PageSource)
        (term loc : String) (M fuel : Nat),
      (Yelp.searchAll sess gs ps term loc M fuel).yielded.length ≤ M)
    ∧ (∀ (src : Twitter.Source) (q : String) (M fuel : Nat),
      (∀ k r j, src k r = .ok j → Twitter.respCount j ≤ r.count) →
      (Twitter.searchAll src q M fuel).yielded.length ≤ M)
    ∧ (∀ (q l : String) (M fuel : Nat), M ≤ fuel →
      (Indeed.searchAll Indeed.bareSession Indeed.amplePageSrc Indeed.deadGqlSrc
        q l M fuel).yielded.length = M)
    ∧ (∀ (term loc : String) (M fuel : Nat) (T : Int), M ≤ fuel → (M : Int) ≤ T →
      (Yelp.searchAll Yelp.tokSession (Yelp.ampleGqlSrc T) Yelp.deadPageSrc
        term loc M fuel).yielded.length = M)
    ∧ (∀ (q : String) (M fuel : Nat), M ≤ fuel →
      (Twitter.searchAll Twitter.ampleSrc q M fuel).yielded.length = M) := by
  refine ⟨?_, ?_, ?_, ?_, ?_, ?_⟩
  · intro sess ps gs q l M fuel
    have hle := Indeed.indeedLoop_le sess ps gs q l M fuel 0 0 0
    simpa [Indeed.searchAll] using hle
  · intro sess gs ps term loc M fuel
    have hle := Yelp.yelpLoop_le sess gs ps term loc M fuel 0 0 0
    simpa [Yelp.searchAll] using hle
  · intro src q M fuel hsrc
    have hle := Twitter.twitterLoop_le src q M hsrc fuel 0 0 .null (Nat.zero_le M)
    simpa [Twitter.searchAll] using hle
  · intro q l M fuel hf
    by_cases hM : 0 < M
    · have he := Indeed.indeedAmple_exact q l M fuel 0 0 0 hM (by omega)
      simpa [Indeed.searchAll] using he
    · have hM0 : M = 0 := by omega
      subst hM0
      cases fuel with
      | zero => rfl
      | succ fuel => rfl
  · intro term loc M fuel T hf hMT
    by_cases hM : 0 < M
    · have he := Yelp.yelpAmple_exact term loc M T hMT fuel 0 0 0 hM (by omega)
      simpa [Yelp.searchAll] using he
    · have hM0 : M = 0 := by omega
      subst hM0
      cases fuel with
      | zero => rfl
      | succ fuel => rfl
  · intro q M fuel hf
    by_cases hM : 0 < M
    · have he := Twitter.twitterAmple_exact q M fuel 0 0 .null hM (by omega)
      simpa [Twitter.searchAll] using he
    · have hM0 : M = 0 := by omega
      subst hM0
      cases fuel with
      | zero => rfl
      | succ fuel => rfl

/-- Witness for C1: exact yields at concrete maxima. -/
theorem claim_C1_witness :
    (Twitter.searchAll Twitter.ampleSrc "q" 45 45).yielded.length = 45
    ∧ (Indeed.searchAll Indeed.bareSession Indeed.amplePageSrc Indeed.deadGqlSrc
        "q" "l" 25 25).yielded.length = 25
    ∧ (Yelp.searchAll Yelp.tokSession (Yelp.ampleGqlSrc 1000) Yelp.deadPageSrc
        "t" "l" 25 25).yielded.length = 25 :=
  ⟨claim_C1_amended.2.2.2.2.2 "q" 45 45 (Nat.le_refl 45),
   claim_C1_amended.2.2.2.1 "q" "l" 25 25 (Nat.le_refl 25),
   claim_C1_amended.2.2.2.2.1 "t" "l" 25 25 1000 (Nat.le_refl 25) (by norm_num)⟩

theorem truthyExceptLast_nil : truthyExceptLast [] := by
  intro i h
  simp at h

theorem truthyExceptLast_single (x : Json) : truthyExceptLast [x] := by
  intro i h
  simp at h

theorem truthyExceptLast_cons (x : Json) (l : List Json) (hx : x.truthy = true)
    (hl : truthyExceptLast l) : truthyExceptLast (x :: l) := by
  intro i h
  cases i with
  | zero => simpa using hx
  | succ i =>
    have hh := hl i (by simpa using h)
    simpa using hh

theorem Indeed.indeedLoop_batches (sess : Indeed.Session) (ps : Indeed.PageSource)
    (gs : Indeed.GqlSource) (q l : String) (M : Nat) :
    ∀ (fuel count page k : Nat),
      truthyExceptLast (Indeed.searchLoop sess ps gs q l M count page k fuel).batches := by
  intro fuel
  induction fuel with
  | zero => intro count page k; exact truthyExceptLast_nil
  | succ fuel ih =>
    intro count page k
    simp only [Indeed.searchLoop]
    split
    · rename_i hcm
      split
      · exact truthyExceptLast_nil
      · rename_i hb
        split
        · exact truthyExceptLast_nil
        · rename_i resp heq
          split
          · exact truthyExceptLast_nil
          · rename_i jobs hasNext heq2
            split
            · exact truthyExceptLast_single _
            · split
              · rename_i js htr
                split
                · exact truthyExceptLast_nil
                · split
                  · exact truthyExceptLast_single _
                  · refine truthyExceptLast_cons _ _ ?_ (ih _ _ _)
                    simpa using htr
              · exact truthyExceptLast_nil
    · exact truthyExceptLast_nil

theorem Yelp.stepBiz_inl_b (M : Nat) (biz tot : Json) (count : Nat)
    {ys b : List Json} {e : Option String}
    (h : Yelp.stepBiz M biz tot count = .inl (ys, b, e)) :
    b = [biz] ∨ b = [] := by
  unfold Yelp.stepBiz at h
  split at h
  · left
    simp only [Sum.inl.injEq, Prod.mk.injEq] at h
    exact h.2.1.symm
  · split at h
    · rename_i bs htr
      dsimp only at h
      split at h
      · left
        simp only [Sum.inl.injEq, Prod.mk.injEq] at h
        exact h.2.1.symm
      · split at h
        · left
          simp only [Sum.inl.injEq, Prod.mk.injEq] at h
          exact h.2.1.symm
        · exact absurd h (by simp)
    · right
      simp only [Sum.inl.injEq, Prod.mk.injEq] at h
      exact h.2.1.symm

theorem Yelp.yelpLoop_batches (sess : Yelp.Session) (gs : Yelp.GqlSource)
    (ps : Yelp.PageSource) (term loc : String) (M : Nat) :
    ∀ (fuel count offset k : Nat),
      truthyExceptLast (Yelp.searchLoop sess gs ps term loc M count offset k fuel).batches := by
  intro fuel
  induction fuel with
  | zero => intro count offset k; exact truthyExceptLast_nil
  | succ fuel ih =>
    intro count offset k
    simp only [Yelp.searchLoop]
    split
    · rename_i hcm
      split
      · exact truthyExceptLast_nil
      · rename_i hb
        split
        · rename_i biz tot heq
          split
          · rename_i ys b e hsb
            have hb2 := Yelp.stepBiz_inl_b M biz tot count hsb
            cases hb2 with
            | inl hb3 => rw [hb3]; exact truthyExceptLast_single _
            | inr hb3 => rw [hb3]; exact truthyExceptLast_nil
          · rename_i ys b c2 hsb
            obtain ⟨-, -, -, hbt⟩ := Yelp.stepBiz_inr M biz tot count hcm hsb
            exact truthyExceptLast_cons _ _ hbt (ih _ _ _)
        · rename_i heq
          split
          · exact truthyExceptLast_nil
          · rename_i biz tot heq2
            split
            · rename_i ys b e hsb
              have hb2 := Yelp.stepBiz_inl_b M biz tot count hsb
              cases hb2 with
              | inl hb3 => rw [hb3]; exact truthyExceptLast_single _
              | inr hb3 => rw [hb3]; exact truthyExceptLast_nil
            · rename_i ys b c2 hsb
              obtain ⟨-, -, -, hbt⟩ := Yelp.stepBiz_inr M biz tot count hcm hsb
              exact truthyExceptLast_cons _ _ hbt (ih _ _ _)
    · exact truthyExceptLast_nil

theorem Twitter.searchLoop_cursors (src : Twitter.Source) (q : String) (M : Nat) :
    ∀ (fuel count k : Nat) (cursor : Json),
      truthyExceptLast (Twitter.searchLoop src q M count k cursor fuel).cursors := by
  intro fuel
  induction fuel with
  | zero => intro count k cursor; exact truthyExceptLast_nil
  | succ fuel ih =>
    intro count k cursor
    simp only [Twitter.searchLoop]
    split
    · rename_i hcm
      split
      · exact truthyExceptLast_nil
      · rename_i hb
        split
        · exact truthyExceptLast_nil
        · rename_i resp heq
          split
          · exact truthyExceptLast_nil
          · rename_i es heq2
            split
            · exact truthyExceptLast_nil
            · rename_i cur heq3
              split
              · exact truthyExceptLast_nil
              · rename_i heq4
                split
                · exact truthyExceptLast_single _
                · rename_i hcont
                  refine truthyExceptLast_cons _ _ ?_ (ih _ _ _)
                  simp only [Bool.or_eq_true, Bool.not_eq_true, not_or] at hcont
                  simpa using hcont.1
    · exact truthyExceptLast_nil

/-- C2 (amended): for Indeed and Yelp every batch except possibly the
final one is nonempty — an empty batch ends the sequence immediately
with no further network calls (concrete runs below show a single call);
for Twitter the sequence continues exactly while a truthy Bottom cursor
is returned and the maximum is not reached, so every non-final Twitter
iteration had a truthy cursor, and an empty batch with a cursor does not
stop it (see the counterexample). -/
theorem claim_C2_amended :
    (∀ (sess : Indeed.Session) (ps : Indeed.PageSource) (gs : Indeed.GqlSource)
        (q l : String) (M fuel : Nat),
      truthyExceptLast (Indeed.searchAll sess ps gs q l M fuel).batches)
    ∧ (∀ (sess : Yelp.Session) (gs : Yelp.GqlSource) (ps : Yelp.PageSource)
        (term loc : String) (M fuel : Nat),
      truthyExceptLast (Yelp.searchAll sess gs ps term loc M fuel).batches)
    ∧ (∀ (src : Twitter.Source) (q : String) (M fuel : Nat),
      truthyExceptLast (Twitter.searchAll src q M fuel).cursors)
    ∧ (Indeed.searchAll Indeed.bareSession Indeed.emptyPageSrc Indeed.deadGqlSrc
        "q" "l" 50 9).calls.length = 1
    ∧ (Indeed.searchAll Indeed.bareSession Indeed.emptyPageSrc Indeed.deadGqlSrc
        "q" "l" 50 9).batches = [Json.arr []]
    ∧ (Yelp.searchAll Yelp.bareSession Yelp.failGqlSrc Yelp.emptyPageSrc
        "t" "l" 50 9).calls.length = 1
    ∧ (Yelp.searchAll Yelp.bareSession Yelp.failGqlSrc Yelp.emptyPageSrc
        "t" "l" 50 9).batches = [Json.arr []] :=
  ⟨fun sess ps gs q l M fuel => Indeed.indeedLoop_batches sess ps gs q l M fuel 0 0 0,
   fun sess gs ps term loc M fuel => Yelp.yelpLoop_batches sess gs ps term loc M fuel 0 0 0,
   fun src q M fuel => Twitter.searchLoop_cursors src q M fuel 0 0 .null,
   rfl, rfl, rfl, rfl⟩

/-- Witness for C2 at a concrete three-batch run. -/
theorem claim_C2_witness :
    ((Indeed.searchAll Indeed.bareSession Indeed.amplePageSrc Indeed.deadGqlSrc
        "q" "l" 25 9).batches.get ⟨0, by decide⟩).truthy = true :=
  claim_C2_amended.1 Indeed.bareSession Indeed.amplePageSrc Indeed.deadGqlSrc
    "q" "l" 25 9 0 (by decide)

theorem offsetChain_nil : offsetChain [] := by
  intro i h
  simp at h

theorem offsetChain_single (x : IterRec) : offsetChain [x] := by
  intro i h
  simp at h

theorem offsetChain_cons (x : IterRec) (l : List IterRec)
    (hl : offsetChain l)
    (hh : ∀ y, l.head? = some y → y.offset = x.offset + x.batchSize) :
    offsetChain (x :: l) := by
  intro i h
  cases i with
  | zero =>
    cases l with
    | nil => simp at h
    | cons y l2 =>
      have hy := hh y rfl
      simpa using hy
  | succ i =>
    have hh2 := hl i (by simpa using h)
    simpa using hh2

theorem itersSingleFacts (offset M count : Nat) :
    (∀ it ∈ [(⟨offset, min 10 (M - count), count⟩ : IterRec)],
      it.batchSize = min 10 (M - it.countBefore))
    ∧ (∀ it, ([(⟨offset, min 10 (M - count), count⟩ : IterRec)] : List IterRec).head?
        = some it → it.offset = offset ∧ it.countBefore = count) := by
  constructor
  · intro it hit
    simp only [List.mem_singleton] at hit
    subst hit
    rfl
  · intro it hit
    simp only [List.head?_cons, Option.some.injEq] at hit
    subst hit
    exact ⟨rfl, rfl⟩

theorem Yelp.searchLoop_iters (sess : Yelp.Session) (gs : Yelp.GqlSource)
    (ps : Yelp.PageSource) (term loc : String) (M : Nat) :
    ∀ (fuel count offset k : Nat),
      offsetChain (Yelp.searchLoop sess gs ps term loc M count offset k fuel).iters
      ∧ (∀ it ∈ (Yelp.searchLoop sess gs ps term loc M count offset k fuel).iters,
          it.batchSize = min 10 (M - it.countBefore))
      ∧ (∀ it, (Yelp.searchLoop sess gs ps term loc M count offset k fuel).iters.head?
          = some it → it.offset = offset ∧ it.countBefore = count) := by
  intro fuel
  induction fuel with
  | zero =>
    intro count offset k
    refine ⟨offsetChain_nil, ?_, ?_⟩
    · intro it hit
      exact absurd hit (List.not_mem_nil it)
    · intro it hit
      exact Option.noConfusion hit
  | succ fuel ih =>
    intro count offset k
    simp only [Yelp.searchLoop]
    split
    · rename_i hcm
      split
      · exact ⟨offsetChain_single _, (itersSingleFacts offset M count).1,
          (itersSingleFacts offset M count).2⟩
      · rename_i hb
        split
        · rename_i biz tot heq
          split
          · exact ⟨offsetChain_single _, (itersSingleFacts offset M count).1,
              (itersSingleFacts offset M count).2⟩
          · rename_i ys b c2 hsb
            obtain ⟨chainR, memR, headR⟩ := ih c2 (offset + min 10 (M - count)) _
            refine ⟨?_, ?_, ?_⟩
            · refine offsetChain_cons _ _ chainR ?_
              intro y hy
              exact (headR y hy).1
            · intro it hit
              rcases List.mem_cons.mp hit with hit1 | hit2
              · subst hit1; rfl
              · exact memR it hit2
            · intro it hit
              simp only [List.head?_cons, Option.some.injEq] at hit
              subst hit
              exact ⟨rfl, rfl⟩
        · rename_i heq
          split
          · exact ⟨offsetChain_single _, (itersSingleFacts offset M count).1,
              (itersSingleFacts offset M count).2⟩
          · rename_i biz tot heq2
            split
            · exact ⟨offsetChain_single _, (itersSingleFacts offset M count).1,
                (itersSingleFacts offset M count).2⟩
            · rename_i ys b c2 hsb
              obtain ⟨chainR, memR, headR⟩ := ih c2 (offset + min 10 (M - count)) _
              refine ⟨?_, ?_, ?_⟩
              · refine offsetChain_cons _ _ chainR ?_
                intro y hy
                exact (headR y hy).1
              · intro it hit
                rcases List.mem_cons.mp hit with hit1 | hit2
                · subst hit1; rfl
                · exact memR it hit2
              · intro it hit
                simp only [List.head?_cons, Option.some.injEq] at hit
                subst hit
                exact ⟨rfl, rfl⟩
    · refine ⟨offsetChain_nil, ?_, ?_⟩
      · intro it hit
        exact absurd hit (List.not_mem_nil it)
      · intro it hit
        exact Option.noConfusion hit

theorem Yelp.gqlParse_error (e : String) :
    Yelp.gqlParse (.error e) = .error e := rfl

theorem Yelp.pageParse_error (e : String) :
    Yelp.pageParse (.error e) = .error e := rfl

theorem Yelp.searchGraphql_none (gs : Yelp.GqlSource) (ps : Yelp.PageSource)
    (term loc : String) (offset limit k : Nat) :
    Yelp.searchGraphql Yelp.bareSession gs ps term loc offset limit k
      = (.error "CSRF token not available", k, []) := rfl

theorem Yelp.searchOnce_err (ps : Yelp.PageSource) (term loc : String)
    (offset limit k : Nat) (e : String) (h : ps k ⟨term, loc, offset⟩ = .error e) :
    Yelp.searchOnce ps term loc offset limit k
      = (.error e, k + 1, [NetCall.yelpPage (Yelp.searchParams term loc offset)]) := by
  unfold Yelp.searchOnce
  rw [h]

theorem Twitter.twitterFirstFail (src : Twitter.Source) (q : String) (M fuel : Nat)
    (e : String) (hM : 0 < M) (hsrc : src 0 ⟨q, min 20 M, .null⟩ = .error e) :
    (Twitter.searchAll src q M (fuel + 1)).yielded = []
    ∧ (Twitter.searchAll src q M (fuel + 1)).err = some e := by
  constructor <;>
  · simp only [Twitter.searchAll, Twitter.searchLoop, Nat.sub_zero]
    rw [if_pos hM, if_neg (show ¬ min 20 M = 0 by omega), hsrc]

theorem Indeed.indeedFirstFail (sess : Indeed.Session) (ps : Indeed.PageSource)
    (gs : Indeed.GqlSource) (q l : String) (M fuel : Nat) (e : String)
    (hM : 0 < M) (hso : (Indeed.searchOnce sess ps gs q l 0 (min 10 M) 0).1 = .error e) :
    (Indeed.searchAll sess ps gs q l M (fuel + 1)).yielded = []
    ∧ (Indeed.searchAll sess ps gs q l M (fuel + 1)).err = some e := by
  constructor <;>
  · simp only [Indeed.searchAll, Indeed.searchLoop, Nat.sub_zero]
    rw [if_pos hM, if_neg (show ¬ min 10 M = 0 by omega), hso]

theorem Yelp.yelpFirstFail (gs : Yelp.GqlSource) (ps : Yelp.PageSource)
    (term loc : String) (M fuel : Nat) (e : String)
    (hM : 0 < M) (hps : ps 0 ⟨term, loc, 0⟩ = .error e) :
    (Yelp.searchAll Yelp.bareSession gs ps term loc M (fuel + 1)).yielded = []
    ∧ (Yelp.searchAll Yelp.bareSession gs ps term loc M (fuel + 1)).err = some e := by
  constructor <;>
  · simp only [Yelp.searchAll, Yelp.searchLoop, Nat.sub_zero]
    rw [if_pos hM, if_neg (show ¬ min 10 M = 0 by omega)]
    rw [Yelp.searchGraphql_none]
    dsimp only
    rw [Yelp.gqlParse_error]
    rw [Yelp.searchOnce_err ps term loc 0 (min 10 M) 0 e hps]
    dsimp only
    rw [Yelp.pageParse_error]

theorem Yelp.searchAll_csrfNone_gs_irrel (gs gs' : Yelp.GqlSource)
    (ps : Yelp.PageSource) (term loc : String) (M : Nat) :
    ∀ (fuel count offset k : Nat),
      Yelp.searchLoop Yelp.bareSession gs ps term loc M count offset k fuel
        = Yelp.searchLoop Yelp.bareSession gs' ps term loc M count offset k fuel := by
  intro fuel
  induction fuel with
  | zero => intro count offset k; rfl
  | succ fuel ih =>
    intro count offset k
    simp only [Yelp.searchLoop, Yelp.searchGraphql_none, Yelp.gqlParse_error]
    simp only [ih]

/-- C6: if the Query Executor raises on the first page then the
pagination run of each client yields zero records and ends with that
exception (for Yelp the executor covers both paths; with the CSRF token
absent the structured path raises before any call and the page-based
fetch is the failing executor). -/
theorem claim_C6_first_page_failure :
    (∀ (src : Twitter.Source) (q : String) (M fuel : Nat) (e : String),
      0 < M → src 0 ⟨q, min 20 M, .null⟩ = .error e →
      (Twitter.searchAll src q M (fuel + 1)).yielded = []
      ∧ (Twitter.searchAll src q M (fuel + 1)).err = some e)
    ∧ (∀ (sess : Indeed.Session) (ps : Indeed.PageSource) (gs : Indeed.GqlSource)
        (q l : String) (M fuel : Nat) (e : String),
      0 < M → (Indeed.searchOnce sess ps gs q l 0 (min 10 M) 0).1 = .error e →
      (Indeed.searchAll sess ps gs q l M (fuel + 1)).yielded = []
      ∧ (Indeed.searchAll sess ps gs q l M (fuel + 1)).err = some e)
    ∧ (∀ (gs : Yelp.GqlSource) (ps : Yelp.PageSource) (term loc : String)
        (M fuel : Nat) (e : String),
      0 < M → ps 0 ⟨term, loc, 0⟩ = .error e →
      (Yelp.searchAll Yelp.bareSession gs ps term loc M (fuel + 1)).yielded = []
      ∧ (Yelp.searchAll Yelp.bareSession gs ps term loc M (fuel + 1)).err = some e) :=
  ⟨fun src q M fuel e hM hsrc => Twitter.twitterFirstFail src q M fuel e hM hsrc,
   fun sess ps gs q l M fuel e hM hso => Indeed.indeedFirstFail sess ps gs q l M fuel e hM hso,
   fun gs ps term loc M fuel e hM hps => Yelp.yelpFirstFail gs ps term loc M fuel e hM hps⟩

/-- Witness for C6 at concrete failing sources. -/
theorem claim_C6_witness :
    ((Twitter.searchAll Twitter.failSrc "q" 5 3).yielded = []
      ∧ (Twitter.searchAll Twitter.failSrc "q" 5 3).err
          = some "Search failed: 429 Rate limit exceeded")
    ∧ ((Indeed.searchAll Indeed.bareSession Indeed.failPageSrc Indeed.deadGqlSrc
          "q" "l" 5 3).yielded = []
      ∧ (Indeed.searchAll Indeed.bareSession Indeed.failPageSrc Indeed.deadGqlSrc
          "q" "l" 5 3).err = some "Search failed: 403")
    ∧ ((Yelp.searchAll Yelp.bareSession Yelp.failGqlSrc Yelp.failPageSrc
          "t" "l" 5 3).yielded = []
      ∧ (Yelp.searchAll Yelp.bareSession Yelp.failGqlSrc Yelp.failPageSrc
          "t" "l" 5 3).err = some "Search failed: 503") :=
  ⟨claim_C6_first_page_failure.1 Twitter.failSrc "q" 5 2
      "Search failed: 429 Rate limit exceeded" (by omega) rfl,
   claim_C6_first_page_failure.2.1 Indeed.bareSession Indeed.failPageSrc
      Indeed.deadGqlSrc "q" "l" 5 2 "Search failed: 403" (by omega) rfl,
   claim_C6_first_page_failure.2.2 Yelp.failGqlSrc Yelp.failPageSrc "t" "l" 5 2
      "Search failed: 503" (by omega) rfl⟩

/-- C7 (amended): when the Yelp structured path fails before the POST —
the CSRF token is absent — the GraphQL source is never consulted and the
driver serves every batch from the page-based path (the concrete run
yields the page records); when both paths fail the exception reaches the
caller.  When the POST itself fails, however, `search_graphql` falls
back internally and returns a page-shaped payload that the driver parses
as an empty structured response, so that batch yields nothing and the
sequence ends (see the counterexample). -/
theorem claim_C7_amended :
    (∀ (gs gs' : Yelp.GqlSource) (ps : Yelp.PageSource) (term loc : String)
        (M fuel : Nat),
      Yelp.searchAll Yelp.bareSession gs ps term loc M fuel
        = Yelp.searchAll Yelp.bareSession gs' ps term loc M fuel)
    ∧ (Yelp.searchAll Yelp.bareSession Yelp.failGqlSrc Yelp.twoBizPageSrc
        "sushi" "SF" 5 3).yielded
      = [Yelp.bizRecordOf "alpha", Yelp.bizRecordOf "beta"]
    ∧ (Yelp.searchAll Yelp.bareSession Yelp.failGqlSrc Yelp.twoBizPageSrc
        "sushi" "SF" 5 3).err = none
    ∧ (Yelp.searchAll Yelp.tokSession Yelp.failGqlSrc Yelp.failPageSrc
        "sushi" "SF" 5 3).err = some "Search failed: 503"
    ∧ (Yelp.searchAll Yelp.tokSession Yelp.failGqlSrc Yelp.failPageSrc
        "sushi" "SF" 5 3).yielded = [] :=
  ⟨fun gs gs' ps term loc M fuel =>
      Yelp.searchAll_csrfNone_gs_irrel gs gs' ps term loc M fuel 0 0 0,
   rfl, rfl, rfl, rfl⟩

/-- C5 (amended): bootstrap failures raise with a stage-identifying
message (`Failed to obtain guest token` / `Failed to initialize
session`), non-200 search responses raise `Search failed`, and a failing
first fetch terminates each client's pagination with that exception
reaching the caller — except that a Yelp structured-path failure is
caught by a generic catch-all and reaches the caller only when the
page-based path also fails (see the counterexample); failures are
distinguished by message text, not by exception type. -/
theorem claim_C5_amended :
    (∀ r : HttpResp, r.status ≠ 200 →
      Twitter.obtainGuestToken (.ok r)
        = .error ("Failed to obtain guest token: " ++ toString r.status ++ " " ++ r.text))
    ∧ (∀ (st : Nat) (home : Indeed.HomePage), st ≠ 200 →
      Indeed.initSession (.ok (st, home))
        = .error ("Failed to initialize session: " ++ toString st))
    ∧ (∀ (st : Nat) (home : Yelp.HomePage), st ≠ 200 →
      Yelp.initSession (.ok (st, home))
        = .error ("Failed to initialize session: " ++ toString st))
    ∧ (∀ r : HttpResp, r.status ≠ 200 →
      Twitter.searchHttp (.ok r)
        = .error ("Search failed: " ++ toString r.status ++ " " ++ r.text))
    ∧ (∀ (src : Twitter.Source) (q : String) (M fuel : Nat) (e : String),
      0 < M → src 0 ⟨q, min 20 M, .null⟩ = .error e →
      (Twitter.searchAll src q M (fuel + 1)).err = some e)
    ∧ (∀ (sess : Indeed.Session) (ps : Indeed.PageSource) (gs : Indeed.GqlSource)
        (q l : String) (M fuel : Nat) (e : String),
      0 < M → (Indeed.searchOnce sess ps gs q l 0 (min 10 M) 0).1 = .error e →
      (Indeed.searchAll sess ps gs q l M (fuel + 1)).err = some e)
    ∧ (∀ (gs : Yelp.GqlSource) (ps : Yelp.PageSource) (term loc : String)
        (M fuel : Nat) (e : String),
      0 < M → ps 0 ⟨term, loc, 0⟩ = .error e →
      (Yelp.searchAll Yelp.bareSession gs ps term loc M (fuel + 1)).err = some e)
    ∧ "Failed to obtain guest token: 403 x" ≠ "Search failed: 403 x" := by
  refine ⟨?_, ?_, ?_, ?_, ?_, ?_, ?_, by decide⟩
  · intro r h
    unfold Twitter.obtainGuestToken
    rw [exBind_ok, if_neg h]
  · intro st home h
    unfold Indeed.initSession
    rw [exBind_ok]
    dsimp only
    rw [if_neg h]
  · intro st home h
    unfold Yelp.initSession
    rw [exBind_ok]
    dsimp only
    rw [if_neg h]
  · intro r h
    unfold Twitter.searchHttp
    rw [exBind_ok, if_neg h]
  · intro src q M fuel e hM hsrc
    exact (Twitter.twitterFirstFail src q M fuel e hM hsrc).2
  · intro sess ps gs q l M fuel e hM hso
    exact (Indeed.indeedFirstFail sess ps gs q l M fuel e hM hso).2
  · intro gs ps term loc M fuel e hM hps
    exact (Yelp.yelpFirstFail gs ps term loc M fuel e hM hps).2

/-- Witness for C5 at concrete failing responses and sources. -/
theorem claim_C5_witness :
    Twitter.obtainGuestToken (.ok ⟨403, .null, "x"⟩)
      = .error "Failed to obtain guest token: 403 x"
    ∧ Indeed.initSession (.ok (503, ⟨none, none⟩))
      = .error "Failed to initialize session: 503"
    ∧ (Yelp.searchAll Yelp.bareSession Yelp.failGqlSrc Yelp.failPageSrc
        "t" "l" 5 3).err = some "Search failed: 503" :=
  ⟨claim_C5_amended.1 ⟨403, .null, "x"⟩ (by decide),
   claim_C5_amended.2.1 503 ⟨none, none⟩ (by omega),
   claim_C5_amended.2.2.2.2.2.2.1 Yelp.failGqlSrc Yelp.failPageSrc "t" "l" 5 2
     "Search failed: 503" (by omega) rfl⟩

/-- C10: the Yelp driver advances the offset between consecutive
iterations by exactly the requested batch size `min 10 (max - count)`,
independent of how many businesses the batch actually returned; the
page request carries no `limit` parameter; and in the concrete run below
a batch returns fifteen businesses against a requested ten, so the next
iteration starts at offset 10 with fifteen records already yielded —
overlapping what was already consumed. -/
theorem claim_C10_offset_advance :
    (∀ (sess : Yelp.Session) (gs : Yelp.GqlSource) (ps : Yelp.PageSource)
        (term loc : String) (M fuel : Nat),
      offsetChain (Yelp.searchAll sess gs ps term loc M fuel).iters)
    ∧ (∀ (sess : Yelp.Session) (gs : Yelp.GqlSource) (ps : Yelp.PageSource)
        (term loc : String) (M fuel : Nat) (it : IterRec),
      it ∈ (Yelp.searchAll sess gs ps term loc M fuel).iters →
      it.batchSize = min 10 (M - it.countBefore))
    ∧ (∀ (term loc : String) (offset : Nat),
      ¬ ("limit" ∈ (Yelp.searchParams term loc offset).map Prod.fst))
    ∧ (Yelp.searchAll Yelp.bareSession Yelp.failGqlSrc Yelp.widePageSrc
        "t" "l" 30 5).iters = [⟨0, 10, 0⟩, ⟨10, 10, 15⟩]
    ∧ (Yelp.searchAll Yelp.bareSession Yelp.failGqlSrc Yelp.widePageSrc
        "t" "l" 30 5).yielded.length = 30 := by
  refine ⟨?_, ?_, ?_, by decide, rfl⟩
  · intro sess gs ps term loc M fuel
    exact (Yelp.searchLoop_iters sess gs ps term loc M fuel 0 0 0).1
  · intro sess gs ps term loc M fuel it hit
    exact (Yelp.searchLoop_iters sess gs ps term loc M fuel 0 0 0).2.1 it hit
  · intro term loc offset
    show ¬ ("limit" ∈ ["find_desc", "find_loc", "start"])
    decide

/-- Witness for C10: the offset advance at the first pair of iterations
of the concrete overlapping run. -/
theorem claim_C10_witness :
    ((Yelp.searchAll Yelp.bareSession Yelp.failGqlSrc Yelp.widePageSrc
        "t" "l" 30 5).iters.get ⟨0 + 1, by decide⟩).offset
      = ((Yelp.searchAll Yelp.bareSession Yelp.failGqlSrc Yelp.widePageSrc
          "t" "l" 30 5).iters.get ⟨0, by decide⟩).offset
        + ((Yelp.searchAll Yelp.bareSession Yelp.failGqlSrc Yelp.widePageSrc
            "t" "l" 30 5).iters.get ⟨0, by decide⟩).batchSize :=
  claim_C10_offset_advance.1 Yelp.bareSession Yelp.failGqlSrc Yelp.widePageSrc
    "t" "l" 30 5 0 (by decide)
